import Mathlib

/-!
Settings form of miniflux: validation and merge

Shallow embedding of `internal/ui/form/settings.go`:

* `SettingsForm` is the Go struct of the same name, field for field;
* `SettingsForm.Validate` takes the form and returns the error (or `none` for
  Go's `nil`) together with the form as the method leaves it, since the method
  has a pointer receiver and may clear `Password`;
* `SettingsForm.Merge` takes the form and the user and returns the updated user;
* `NewSettingsForm` takes the request, and the parts of package strconv that
  depend on the platform or are not modelled (`IntSize`, and the rounding of a
  number to the nearest float64), and returns the form; `strconv.ParseInt` and
  the reading of a text by `strconv.ParseFloat` are modelled after their Go
  source.

Go's `int` is an `Int` here: `Validate` and `Merge` only compare and copy these
fields, and the decoder converts with an explicit reduction modulo 2^IntSize.
Go's `float64` is `Float64` below: the code only compares and copies the
playback rate, and comparison of IEEE 754 values is exact.
-/

namespace Miniflux

/-! ## Floating point values, as far as comparison sees them -/

/-- A Go `float64`. Every finite float64 is a rational number, and the ordered
comparisons of two finite values are the comparisons of these rationals; the two
zeros compare equal and are both `finite 0`. `finite` admits every rational, a
superset of the representable values, so a statement over all `Float64` covers
every float64. The infinities and NaN are kept apart because the comparisons
treat them specially. -/
inductive Float64 where
  | finite (q : ℚ)
  | posInf
  | negInf
  | nan
  deriving DecidableEq

namespace Float64

/-- Go's `x < y` on float64 (IEEE 754): false whenever an operand is NaN. -/
def lt : Float64 → Float64 → Bool
  | finite a, finite b => decide (a < b)
  | finite _, posInf => true
  | negInf, finite _ => true
  | negInf, posInf => true
  | _, _ => false

/-- Go's `x > y` on float64 (IEEE 754): false whenever an operand is NaN. -/
def gt (x y : Float64) : Bool := lt y x

/-- Membership of a float64 in the closed interval of reals `[lo, hi]`: only a
finite value between the bounds is inside; an infinity or NaN is not. -/
def inClosedRange (lo hi : ℚ) : Float64 → Bool
  | finite q => decide (lo ≤ q) && decide (q ≤ hi)
  | _ => false

end Float64

/-! ## Data model -/

/-- SettingsForm represents the settings form. -/
structure SettingsForm where
  Username : String
  Password : String
  Confirmation : String
  Theme : String
  Language : String
  Timezone : String
  EntryDirection : String
  EntryOrder : String
  EntriesPerPage : Int
  KeyboardShortcuts : Bool
  ShowReadingTime : Bool
  CustomCSS : String
  EntrySwipe : Bool
  GestureNav : String
  DisplayMode : String
  DefaultReadingSpeed : Int
  CJKReadingSpeed : Int
  DefaultHomePage : String
  CategoriesSortingOrder : String
  MarkReadOnView : Bool
  MediaPlaybackRate : Float64
  BlockFilterEntryRules : String
  KeepFilterEntryRules : String
  deriving DecidableEq

/-- Modelled from the spec: `model.User` is declared outside `settings.go`. The
spec describes the target user as the same preference fields as the form plus a
stored-password field; the field names are those `Merge` assigns. -/
structure User where
  Username : String
  Password : String
  Theme : String
  Language : String
  Timezone : String
  EntryDirection : String
  EntryOrder : String
  EntriesPerPage : Int
  KeyboardShortcuts : Bool
  ShowReadingTime : Bool
  Stylesheet : String
  EntrySwipe : Bool
  GestureNav : String
  DisplayMode : String
  CJKReadingSpeed : Int
  DefaultReadingSpeed : Int
  DefaultHomePage : String
  CategoriesSortingOrder : String
  MarkReadOnView : Bool
  MediaPlaybackRate : Float64
  BlockFilterEntryRules : String
  KeepFilterEntryRules : String
  deriving DecidableEq

/-- Modelled from the spec: `locale.LocalizedError` is declared outside
`settings.go`. The spec calls it a localized error identifier from a fixed set;
it is the message key handed to `locale.NewLocalizedError`. -/
structure LocalizedError where
  translationKey : String
  deriving DecidableEq

/-- Modelled from the spec: `locale.NewLocalizedError` wraps a message key. -/
def NewLocalizedError (key : String) : LocalizedError := ⟨key⟩

/-! ## Operations -/

namespace SettingsForm

/-- Merge updates the fields of the given user. -/
def Merge (s : SettingsForm) (user : User) : User :=
  let user : User :=
    { user with
      Username := s.Username
      Theme := s.Theme
      Language := s.Language
      Timezone := s.Timezone
      EntryDirection := s.EntryDirection
      EntryOrder := s.EntryOrder
      EntriesPerPage := s.EntriesPerPage
      KeyboardShortcuts := s.KeyboardShortcuts
      ShowReadingTime := s.ShowReadingTime
      Stylesheet := s.CustomCSS
      EntrySwipe := s.EntrySwipe
      GestureNav := s.GestureNav
      DisplayMode := s.DisplayMode
      CJKReadingSpeed := s.CJKReadingSpeed
      DefaultReadingSpeed := s.DefaultReadingSpeed
      DefaultHomePage := s.DefaultHomePage
      CategoriesSortingOrder := s.CategoriesSortingOrder
      MarkReadOnView := s.MarkReadOnView
      MediaPlaybackRate := s.MediaPlaybackRate
      BlockFilterEntryRules := s.BlockFilterEntryRules
      KeepFilterEntryRules := s.KeepFilterEntryRules }
  if s.Password ≠ "" then
    { user with Password := s.Password }
  else
    user

/-- The last statements of `Validate` (the playback-rate check and the final
`return nil`), which every path that gets past the password block runs on the
form as that block left it. -/
def validatePlaybackRate (s : SettingsForm) : Option LocalizedError × SettingsForm :=
  if Float64.lt s.MediaPlaybackRate (.finite (1 / 4)) ||
      Float64.gt s.MediaPlaybackRate (.finite 4) then
    (some (NewLocalizedError "error.settings_media_playback_rate_range"), s)
  else
    (none, s)

/-- Validate makes sure the form values are valid. The first component is the
returned error (`none` is Go's `nil`), the second the form after the call. -/
def Validate (s : SettingsForm) : Option LocalizedError × SettingsForm :=
  if s.Username = "" ∨ s.Theme = "" ∨ s.Language = "" ∨ s.Timezone = "" ∨
      s.EntryDirection = "" ∨ s.DisplayMode = "" ∨ s.DefaultHomePage = "" then
    (some (NewLocalizedError "error.settings_mandatory_fields"), s)
  else if s.CJKReadingSpeed ≤ 0 ∨ s.DefaultReadingSpeed ≤ 0 then
    (some (NewLocalizedError "error.settings_reading_speed_is_positive"), s)
  else if s.Confirmation = "" then
    validatePlaybackRate { s with Password := "" }
  else if s.Password ≠ "" then
    if s.Password ≠ s.Confirmation then
      (some (NewLocalizedError "error.different_passwords"), s)
    else
      validatePlaybackRate s
  else
    validatePlaybackRate s

end SettingsForm

/-! ## Concrete values used in the examples -/

/-- A form that satisfies every rule: no password change requested. -/
def sampleForm : SettingsForm where
  Username := "alice"
  Password := ""
  Confirmation := ""
  Theme := "light_serif"
  Language := "en_US"
  Timezone := "UTC"
  EntryDirection := "asc"
  EntryOrder := "published_at"
  EntriesPerPage := 100
  KeyboardShortcuts := true
  ShowReadingTime := true
  CustomCSS := ""
  EntrySwipe := true
  GestureNav := "tap"
  DisplayMode := "standalone"
  DefaultReadingSpeed := 265
  CJKReadingSpeed := 500
  DefaultHomePage := "unread"
  CategoriesSortingOrder := "unread_count"
  MarkReadOnView := false
  MediaPlaybackRate := .finite 1
  BlockFilterEntryRules := ""
  KeepFilterEntryRules := ""

/-- A stored user whose fields all differ from `sampleForm`. -/
def sampleUser : User where
  Username := "bob"
  Password := "stored-hash"
  Theme := "dark_serif"
  Language := "fr_FR"
  Timezone := "Europe/Paris"
  EntryDirection := "desc"
  EntryOrder := "created_at"
  EntriesPerPage := 50
  KeyboardShortcuts := false
  ShowReadingTime := false
  Stylesheet := "body \x7b\x7d"
  EntrySwipe := false
  GestureNav := "none"
  DisplayMode := "fullscreen"
  CJKReadingSpeed := 400
  DefaultReadingSpeed := 200
  DefaultHomePage := "starred"
  CategoriesSortingOrder := "alphabetical"
  MarkReadOnView := true
  MediaPlaybackRate := .finite 2
  BlockFilterEntryRules := "EntryTitle=(?i)spam"
  KeepFilterEntryRules := "EntryTitle=(?i)news"

/-- The sample form with a playback rate of NaN, which the decoder produces
for the raw text "NaN" (`strconv.ParseFloat` returns NaN and no error). -/
def nanForm : SettingsForm := { sampleForm with MediaPlaybackRate := .nan }

/-- The sample form with an empty username and a default reading speed of 0. -/
def noUsernameZeroSpeedForm : SettingsForm :=
  { sampleForm with Username := "", DefaultReadingSpeed := 0 }

/-- The sample form with an autofilled password, no confirmation and a
playback rate of 5. -/
def autofilledFastForm : SettingsForm :=
  { sampleForm with Password := "autofilled", MediaPlaybackRate := .finite 5 }

/-! ## The rules in the words of the specification -/

/-- Rule 1 holds: the seven mandatory fields are each non-empty. -/
def mandatoryFieldsPresent (s : SettingsForm) : Prop :=
  s.Username ≠ "" ∧ s.Theme ≠ "" ∧ s.Language ≠ "" ∧ s.Timezone ≠ "" ∧
    s.EntryDirection ≠ "" ∧ s.DisplayMode ≠ "" ∧ s.DefaultHomePage ≠ ""

instance (s : SettingsForm) : Decidable (mandatoryFieldsPresent s) :=
  inferInstanceAs (Decidable (_ ∧ _))

/-- Rule 2 holds: both reading speeds are strictly positive. -/
def readingSpeedsPositive (s : SettingsForm) : Prop :=
  0 < s.CJKReadingSpeed ∧ 0 < s.DefaultReadingSpeed

instance (s : SettingsForm) : Decidable (readingSpeedsPositive s) :=
  inferInstanceAs (Decidable (_ ∧ _))

/-- Rule 3 is violated: confirmation and password are both non-empty and differ. -/
def passwordMismatch (s : SettingsForm) : Prop :=
  s.Confirmation ≠ "" ∧ s.Password ≠ "" ∧ s.Password ≠ s.Confirmation

instance (s : SettingsForm) : Decidable (passwordMismatch s) :=
  inferInstanceAs (Decidable (_ ∧ _))

/-- Rule 4 holds: the media playback rate lies in the closed range [0.25, 4]. -/
def playbackRateInRange (s : SettingsForm) : Prop :=
  Float64.inClosedRange (1 / 4) 4 s.MediaPlaybackRate = true

instance (s : SettingsForm) : Decidable (playbackRateInRange s) :=
  inferInstanceAs (Decidable (_ = true))

/-- The error of the first violated rule, in the order the specification lists
the four rules, and `none` when no rule is violated. -/
def firstViolatedRule (s : SettingsForm) : Option LocalizedError :=
  if ¬ mandatoryFieldsPresent s then
    some (NewLocalizedError "error.settings_mandatory_fields")
  else if ¬ readingSpeedsPositive s then
    some (NewLocalizedError "error.settings_reading_speed_is_positive")
  else if passwordMismatch s then
    some (NewLocalizedError "error.different_passwords")
  else if ¬ playbackRateInRange s then
    some (NewLocalizedError "error.settings_media_playback_rate_range")
  else
    none

/-! ## The decoder and the library functions it calls -/

/-- The `*http.Request` as far as `NewSettingsForm` reads it: the parsed form
values `r.Form`, a Go `map[string][]string`; a key that is absent has the empty
list of values. -/
structure Request where
  Form : String → List String

/-- Go's `r.FormValue(key)` of net/http: the first value for the key, and the
empty string when there is none. -/
def Request.FormValue (r : Request) (key : String) : String :=
  match r.Form key with
  | [] => ""
  | v :: _ => v

/-- The two errors of `strconv.NumError` (`ErrSyntax`, `ErrRange`); `none`
stands for a nil error. -/
inductive NumError where
  | ErrSyntax
  | ErrRange
  deriving DecidableEq

/-- The parts of Go's package strconv that are given from outside: `IntSize`,
the size in bits of an `int` on the platform (32 or 64), and the last step of
`ParseFloat(s, 64)`, the conversion of the number read into the nearest float64
together with the flag that it overflowed (`atofHex`, `floatBits` and their
fast paths in Go). -/
structure Strconv where
  IntSize : Nat
  NearestFloat64 : ℚ → Float64 × Bool

/-- Go's `maxUint64` of package strconv. -/
def maxUint64 : Nat := 2 ^ 64 - 1

/-- Go's `lower(c)` of package strconv, `c | ('x' - 'X')`, on a byte. -/
def lower (c : Nat) : Nat := c ||| 0x20

/-- The loop of `strconv.ParseUint` for base 10, on the characters left to read
and the accumulator `n`, a uint64. A character that is not ASCII is several
bytes in Go, each of which takes the `default` case as the character does here.
For base 10 the underscore case of the switch is never taken. -/
def parseUintLoop (maxVal : Nat) : List Char → Nat → Nat × Option NumError
  | [], n => (n, none)
  | c :: cs, n =>
    let digit : Option Nat :=
      if '0'.toNat ≤ c.toNat ∧ c.toNat ≤ '9'.toNat then
        some (c.toNat - '0'.toNat)
      else if 'a'.toNat ≤ lower c.toNat ∧ lower c.toNat ≤ 'z'.toNat then
        some (lower c.toNat - 'a'.toNat + 10)
      else
        none
    match digit with
    | none => (0, some .ErrSyntax)
    | some d =>
      if d ≥ 10 then
        (0, some .ErrSyntax)
      else if n ≥ maxUint64 / 10 + 1 then
        (maxVal, some .ErrRange)
      else
        let n := n * 10 % 2 ^ 64
        let n1 := (n + d) % 2 ^ 64
        if n1 < n ∨ n1 > maxVal then
          (maxVal, some .ErrRange)
        else
          parseUintLoop maxVal cs n1

/-- Go's `strconv.ParseUint(s, 10, 0)` on the characters of `s`: bit size 0
stands for `IntSize`, and `maxVal` is `uint64(1)<<uint(bitSize) - 1` in uint64
arithmetic. -/
def ParseUint (intSize : Nat) (s : List Char) : Nat × Option NumError :=
  if s = [] then
    (0, some .ErrSyntax)
  else
    let maxVal := (2 ^ intSize % 2 ^ 64 + 2 ^ 64 - 1) % 2 ^ 64
    parseUintLoop maxVal s 0

/-- Go's conversion `int64(x)`: the value modulo 2^64 in [-2^63, 2^63). -/
def toInt64 (x : Int) : Int := (x + 2 ^ 63) % 2 ^ 64 - 2 ^ 63

/-- The second half of `strconv.ParseInt(s, 10, 0)` ("convert unsigned and
check range"), on the sign read and the characters after it. -/
def parseIntSigned (intSize : Nat) (neg : Bool) (rest : List Char) :
    Int × Option NumError :=
  let un := ParseUint intSize rest
  if un.2 ≠ none ∧ un.2 ≠ some .ErrRange then
    (0, un.2)
  else
    let cutoff := 2 ^ (intSize - 1) % 2 ^ 64
    if neg = false ∧ un.1 ≥ cutoff then
      (toInt64 ((cutoff - 1 : Nat) : Int), some .ErrRange)
    else if neg = true ∧ un.1 > cutoff then
      (toInt64 (-toInt64 (cutoff : Int)), some .ErrRange)
    else
      let n := toInt64 (un.1 : Int)
      let n := if neg = true then toInt64 (-n) else n
      (n, none)

/-- Go's `strconv.ParseInt(s, 10, 0)`: the int64 returned and the error. The
first half picks off the leading sign. -/
def ParseInt (intSize : Nat) (s : String) : Int × Option NumError :=
  match s.data with
  | [] => (0, some .ErrSyntax)
  | c :: cs =>
    if c = '+' then
      parseIntSigned intSize false cs
    else if c = '-' then
      parseIntSigned intSize true cs
    else
      parseIntSigned intSize false (c :: cs)

/-- Go's conversion `int(x)` of an int64 on a platform whose `int` has
`intSize` bits. -/
def toInt (intSize : Nat) (x : Int) : Int :=
  (x + 2 ^ (intSize - 1)) % 2 ^ intSize - 2 ^ (intSize - 1)

/-- Go's `commonPrefixLenIgnoreCase(s, prefix)` of package strconv: the length
of the longest common beginning of `s`, with `A` to `Z` read as lower case, and
of `pre`, which is in lower case. -/
def commonPrefixLenIgnoreCase : List Char → List Char → Nat
  | c :: s, p :: pre =>
    let c := if 'A'.toNat ≤ c.toNat ∧ c.toNat ≤ 'Z'.toNat then
      Char.ofNat (c.toNat + ('a'.toNat - 'A'.toNat)) else c
    if c ≠ p then 0 else commonPrefixLenIgnoreCase s pre + 1
  | _, _ => 0

/-- The second case of the switch of Go's `special`, which the first case falls
through to: `inf` or `infinity` at the beginning of `s`, in any case. It
returns the characters after it. -/
def specialInf (s : List Char) : Option (List Char) :=
  let n := commonPrefixLenIgnoreCase s "infinity".data
  let n := if 3 < n ∧ n < 8 then 3 else n
  if n = 3 ∨ n = 8 then some (s.drop n) else none

/-- Go's `special(s)` of package strconv: the value of a possibly signed `inf`
or `infinity` or of an unsigned `nan`, in any case, at the beginning of `s`,
together with the characters after it; `none` when `ok` is false. -/
def special (s : List Char) : Option (Float64 × List Char) :=
  match s with
  | [] => none
  | c :: cs =>
    if c = '+' ∨ c = '-' then
      (specialInf cs).map (fun rest => (if c = '-' then Float64.negInf else Float64.posInf, rest))
    else if c = 'i' ∨ c = 'I' then
      (specialInf (c :: cs)).map (fun rest => (Float64.posInf, rest))
    else if c = 'n' ∨ c = 'N' then
      if commonPrefixLenIgnoreCase (c :: cs) "nan".data = 3 then
        some (Float64.nan, cs.drop 2)
      else
        none
    else
      none

/-- Go's `underscoreOK(s)` of package strconv after the optional sign and base
prefix, on the last kind of character seen (`'0'` a digit or the base prefix,
`'_'` an underscore, `'!'` any other, `'^'` none yet). -/
def underscoreOKLoop (hex : Bool) : List Char → Char → Bool
  | [], saw => saw ≠ '_'
  | c :: cs, saw =>
    if ('0'.toNat ≤ c.toNat ∧ c.toNat ≤ '9'.toNat) ∨
        (hex = true ∧ 'a'.toNat ≤ lower c.toNat ∧ lower c.toNat ≤ 'f'.toNat) then
      underscoreOKLoop hex cs '0'
    else if c = '_' then
      if saw ≠ '0' then false else underscoreOKLoop hex cs '_'
    else if saw = '_' then
      false
    else
      underscoreOKLoop hex cs '!'

/-- Go's `underscoreOK(s)` of package strconv: underscores appear only between
digits or between a base prefix and a digit. -/
def underscoreOK (s : List Char) : Bool :=
  let s := match s with
    | c :: cs => if c = '-' ∨ c = '+' then cs else c :: cs
    | [] => []
  match s with
  | c0 :: c1 :: cs =>
    if c0 = '0' ∧ (lower c1.toNat = 'b'.toNat ∨ lower c1.toNat = 'o'.toNat ∨
        lower c1.toNat = 'x'.toNat) then
      underscoreOKLoop (decide (lower c1.toNat = 'x'.toNat)) cs '0'
    else
      underscoreOKLoop false (c0 :: c1 :: cs) '^'
  | s => underscoreOKLoop false s '^'

/-- The variables of Go's `readFloat` that its result depends on. `mantissa`
holds every digit read after the leading zeros, where Go keeps the first 19 (16
in base 16) and a flag for the rest, because the conversion that follows rounds
the exact value. -/
structure FloatDigits where
  mantissa : Nat
  underscores : Bool
  sawdot : Bool
  sawdigits : Bool
  nd : Int
  dp : Int

/-- The loop of Go's `readFloat` over the digits, the point and the
underscores: the variables after it and the characters left. -/
def readFloatLoop (hex : Bool) : List Char → FloatDigits → FloatDigits × List Char
  | [], st => (st, [])
  | c :: cs, st =>
    if c = '_' then
      readFloatLoop hex cs { st with underscores := true }
    else if c = '.' then
      if st.sawdot = true then
        (st, c :: cs)
      else
        readFloatLoop hex cs { st with sawdot := true, dp := st.nd }
    else if '0'.toNat ≤ c.toNat ∧ c.toNat ≤ '9'.toNat then
      if c = '0' ∧ st.nd = 0 then
        readFloatLoop hex cs { st with sawdigits := true, dp := st.dp - 1 }
      else
        readFloatLoop hex cs
          { st with
            sawdigits := true
            nd := st.nd + 1
            mantissa := st.mantissa * (if hex = true then 16 else 10) +
              (c.toNat - '0'.toNat) }
    else if hex = true ∧ 'a'.toNat ≤ lower c.toNat ∧ lower c.toNat ≤ 'f'.toNat then
      readFloatLoop hex cs
        { st with
          sawdigits := true
          nd := st.nd + 1
          mantissa := st.mantissa * 16 + (lower c.toNat - 'a'.toNat + 10) }
    else
      (st, c :: cs)

/-- The loop of Go's `readFloat` over the digits and underscores of the
exponent: the exponent, which stops growing at 10000, whether an underscore was
seen, and the characters left. -/
def readExponentLoop : List Char → Int → Bool → Int × Bool × List Char
  | [], e, underscores => (e, underscores, [])
  | c :: cs, e, underscores =>
    if c = '_' then
      readExponentLoop cs e true
    else if '0'.toNat ≤ c.toNat ∧ c.toNat ≤ '9'.toNat then
      readExponentLoop cs (if e < 10000 then e * 10 + (c.toNat - '0'.toNat : Nat) else e)
        underscores
    else
      (e, underscores, c :: cs)

/-- Go's `readFloat(s)` of package strconv: `none` when `ok` is false, and
otherwise the exact rational the characters read denote and the characters left.
Go returns the mantissa, the exponent and the sign that make up this number. -/
def readFloat (s : List Char) : Option (ℚ × List Char) :=
  match s with
  | [] => none
  | c :: cs =>
    let neg : Bool := decide (c = '-')
    let s1 := if c = '+' ∨ c = '-' then cs else c :: cs
    let hex : Bool :=
      match s1 with
      | c0 :: c1 :: _ :: _ => decide (c0 = '0' ∧ lower c1.toNat = 'x'.toNat)
      | _ => false
    let s2 := if hex = true then s1.drop 2 else s1
    let r := readFloatLoop hex s2 ⟨0, false, false, false, 0, 0⟩
    let st := r.1
    if st.sawdigits = false then
      none
    else
      let dp := if st.sawdot = false then st.nd else st.dp
      let dp := if hex = true then dp * 4 else dp
      let nd := if hex = true then st.nd * 4 else st.nd
      let expChar := if hex = true then 'p' else 'e'
      let afterExponent : Option (Int × Bool × List Char) :=
        match r.2 with
        | e :: rest =>
          if lower e.toNat = expChar.toNat then
            match rest with
            | [] => none
            | c2 :: rest2 =>
              let esign : Int := if c2 = '-' then -1 else 1
              let rest3 := if c2 = '+' ∨ c2 = '-' then rest2 else c2 :: rest2
              match rest3 with
              | [] => none
              | d :: _ =>
                if d.toNat < '0'.toNat ∨ d.toNat > '9'.toNat then
                  none
                else
                  let x := readExponentLoop rest3 0 st.underscores
                  some (dp + x.1 * esign, x.2.1, x.2.2)
          else if hex = true then
            none
          else
            some (dp, st.underscores, e :: rest)
        | [] => if hex = true then none else some (dp, st.underscores, [])
      match afterExponent with
      | none => none
      | some (dp, underscores, left) =>
        if underscores = true ∧ underscoreOK (s.take (s.length - left.length)) = false then
          none
        else
          let value : ℚ := (st.mantissa : ℚ) * (if hex = true then 2 else 10) ^ (dp - nd)
          some (if neg = true then -value else value, left)

/-- Go's `strconv.ParseFloat(s, 64)`: the float64 returned and the error. The
conversion of the number read into the nearest float64 is `lib.NearestFloat64`. -/
def ParseFloat (lib : Strconv) (s : String) : Float64 × Option NumError :=
  match special s.data with
  | some (val, rest) =>
    if rest ≠ [] then (.finite 0, some .ErrSyntax) else (val, none)
  | none =>
    match readFloat s.data with
    | none => (.finite 0, some .ErrSyntax)
    | some (q, rest) =>
      if rest ≠ [] then
        (.finite 0, some .ErrSyntax)
      else
        let f := lib.NearestFloat64 q
        (f.1, if f.2 = true then some .ErrRange else none)

/-- NewSettingsForm returns a new SettingsForm. -/
def NewSettingsForm (lib : Strconv) (r : Request) : SettingsForm :=
  let parsed := ParseInt lib.IntSize (r.FormValue "entries_per_page")
  let entriesPerPage := if parsed.2 ≠ none then 0 else parsed.1
  let parsed := ParseInt lib.IntSize (r.FormValue "default_reading_speed")
  let defaultReadingSpeed := if parsed.2 ≠ none then 0 else parsed.1
  let parsed := ParseInt lib.IntSize (r.FormValue "cjk_reading_speed")
  let cjkReadingSpeed := if parsed.2 ≠ none then 0 else parsed.1
  let parsedFloat := ParseFloat lib (r.FormValue "media_playback_rate")
  let mediaPlaybackRate := if parsedFloat.2 ≠ none then .finite 1 else parsedFloat.1
  { Username := r.FormValue "username"
    Password := r.FormValue "password"
    Confirmation := r.FormValue "confirmation"
    Theme := r.FormValue "theme"
    Language := r.FormValue "language"
    Timezone := r.FormValue "timezone"
    EntryDirection := r.FormValue "entry_direction"
    EntryOrder := r.FormValue "entry_order"
    EntriesPerPage := toInt lib.IntSize entriesPerPage
    KeyboardShortcuts := r.FormValue "keyboard_shortcuts" == "1"
    ShowReadingTime := r.FormValue "show_reading_time" == "1"
    CustomCSS := r.FormValue "custom_css"
    EntrySwipe := r.FormValue "entry_swipe" == "1"
    GestureNav := r.FormValue "gesture_nav"
    DisplayMode := r.FormValue "display_mode"
    DefaultReadingSpeed := toInt lib.IntSize defaultReadingSpeed
    CJKReadingSpeed := toInt lib.IntSize cjkReadingSpeed
    DefaultHomePage := r.FormValue "default_home_page"
    CategoriesSortingOrder := r.FormValue "categories_sorting_order"
    MarkReadOnView := r.FormValue "mark_read_on_view" == "1"
    MediaPlaybackRate := mediaPlaybackRate
    BlockFilterEntryRules := r.FormValue "block_filter_entry_rules"
    KeepFilterEntryRules := r.FormValue "keep_filter_entry_rules" }

/-! ## The decoding of an integer field in the words of the specification -/

/-- A decimal digit, `0` to `9`. -/
def isDecimalDigit (c : Char) : Bool := decide ('0'.toNat ≤ c.toNat ∧ c.toNat ≤ '9'.toNat)

/-- The natural number a non-empty string of decimal digits denotes, most
significant digit first; `none` for any other string. -/
def decimalNat (cs : List Char) : Option Nat :=
  if cs ≠ [] ∧ cs.all isDecimalDigit = true then
    some (Nat.ofDigits 10 (cs.reverse.map (fun c => c.toNat - '0'.toNat)))
  else
    none

/-- The base-10 integer a string denotes: an optional sign `+` or `-` followed
by a non-empty string of decimal digits; `none` for any other string. -/
def decimalInt (s : String) : Option Int :=
  match s.data with
  | [] => none
  | c :: cs =>
    if c = '+' then (decimalNat cs).map (fun (n : Nat) => (n : Int))
    else if c = '-' then (decimalNat cs).map (fun (n : Nat) => -(n : Int))
    else (decimalNat (c :: cs)).map (fun (n : Nat) => (n : Int))

/-- The integer field the specification asks of the decoder for a raw value: the
integer the value denotes when it denotes one that an `int` of `intSize` bits
holds, and 0 in every other case. -/
def decodedInt (intSize : Nat) (raw : String) : Int :=
  match decimalInt raw with
  | some v => if -2 ^ (intSize - 1) ≤ v ∧ v < 2 ^ (intSize - 1) then v else 0
  | none => 0

/-- The number read so far after the digits `cs` are added to `n`, each
step multiplying by ten and adding the digit. -/
def readDigits (n : Nat) (cs : List Char) : Nat :=
  cs.foldl (fun a c => a * 10 + (c.toNat - '0'.toNat)) n

/-! ## Concrete requests used in the examples -/

/-- The package strconv on a 64-bit platform, with a stand-in for the rounding
that keeps the exact number, which is right for every number that is a
float64. -/
def sampleStrconv : Strconv where
  IntSize := 64
  NearestFloat64 := fun q => (.finite q, false)

/-- A request with a value for some of the keys and none for the others. -/
def sampleRequest : Request where
  Form := fun key =>
    if key = "username" then ["alice"]
    else if key = "entries_per_page" then ["notanumber"]
    else if key = "default_reading_speed" then ["+265", "7"]
    else if key = "cjk_reading_speed" then ["99999999999999999999"]
    else if key = "media_playback_rate" then ["fast"]
    else if key = "keyboard_shortcuts" then ["1"]
    else if key = "show_reading_time" then ["true"]
    else if key = "entry_swipe" then [" 1"]
    else []

/-- A request whose fields satisfy every rule of `Validate` but for the
media_playback_rate, which is the text "Inf". -/
def infinityRequest : Request where
  Form := fun key =>
    if key = "username" then ["alice"]
    else if key = "theme" then ["light_serif"]
    else if key = "language" then ["en_US"]
    else if key = "timezone" then ["UTC"]
    else if key = "entry_direction" then ["asc"]
    else if key = "display_mode" then ["standalone"]
    else if key = "default_home_page" then ["unread"]
    else if key = "default_reading_speed" then ["265"]
    else if key = "cjk_reading_speed" then ["500"]
    else if key = "media_playback_rate" then ["Inf"]
    else []

/-! ## A decimal number in the words of the specification -/

/-- The characters of `cs` after an optional sign `+` or `-`. -/
def dropSign : List Char → List Char
  | [] => []
  | c :: cs => if c = '+' ∨ c = '-' then cs else c :: cs

/-- A decimal number in the usual notation: an optional sign, decimal digits
with at most one point among them and at least one digit, and an optional
exponent, `e` or `E` followed by an optional sign and at least one decimal
digit. -/
def isDecimalNumber (s : String) : Bool :=
  let cs := dropSign s.data
  let whole := cs.takeWhile isDecimalDigit
  let afterWhole := cs.dropWhile isDecimalDigit
  let fraction :=
    match afterWhole with
    | c :: rest => if c = '.' then rest.takeWhile isDecimalDigit else []
    | [] => []
  let afterFraction :=
    match afterWhole with
    | c :: rest => if c = '.' then rest.dropWhile isDecimalDigit else c :: rest
    | [] => []
  decide (whole ≠ [] ∨ fraction ≠ []) &&
    match afterFraction with
    | [] => true
    | e :: rest =>
      decide (e = 'e' ∨ e = 'E') && decide (dropSign rest ≠ []) &&
        (dropSign rest).all isDecimalDigit

/-! ## Lemmas on the comparisons -/

namespace Float64

theorem lt_finite_iff (a b : ℚ) : lt (finite a) (finite b) = true ↔ a < b := by
  simp [lt]

theorem gt_finite_iff (a b : ℚ) : gt (finite a) (finite b) = true ↔ b < a := by
  simp [gt, lt]

/-- For every value but NaN, the two comparisons of the code reject exactly the
values outside the closed range. -/
theorem outside_iff_not_inClosedRange (r : Float64) (h : r ≠ nan) :
    (lt r (finite (1 / 4)) || gt r (finite 4)) = true ↔
      inClosedRange (1 / 4) 4 r = false := by
  cases r with
  | finite q =>
    simp only [lt, gt, inClosedRange, Bool.or_eq_true, decide_eq_true_eq,
      Bool.and_eq_false_iff, decide_eq_false_iff_not, not_le]
  | posInf => simp [lt, gt, inClosedRange]
  | negInf => simp [lt, gt, inClosedRange]
  | nan => exact absurd rfl h

/-- NaN passes both comparisons of the code. -/
theorem nan_passes : (lt nan (finite (1 / 4)) || gt nan (finite 4)) = false := by
  simp [lt, gt]

end Float64

/-! ## Lemmas on `Validate`, one per path -/

namespace SettingsForm

theorem Validate_mandatory (s : SettingsForm) (h : ¬ mandatoryFieldsPresent s) :
    s.Validate = (some (NewLocalizedError "error.settings_mandatory_fields"), s) := by
  have hc : s.Username = "" ∨ s.Theme = "" ∨ s.Language = "" ∨ s.Timezone = "" ∨
      s.EntryDirection = "" ∨ s.DisplayMode = "" ∨ s.DefaultHomePage = "" := by
    unfold mandatoryFieldsPresent at h
    tauto
  unfold Validate
  rw [if_pos hc]

theorem Validate_readingSpeed (s : SettingsForm) (hm : mandatoryFieldsPresent s)
    (h : ¬ readingSpeedsPositive s) :
    s.Validate = (some (NewLocalizedError "error.settings_reading_speed_is_positive"), s) := by
  have hc : ¬ (s.Username = "" ∨ s.Theme = "" ∨ s.Language = "" ∨ s.Timezone = "" ∨
      s.EntryDirection = "" ∨ s.DisplayMode = "" ∨ s.DefaultHomePage = "") := by
    unfold mandatoryFieldsPresent at hm
    tauto
  have hs : s.CJKReadingSpeed ≤ 0 ∨ s.DefaultReadingSpeed ≤ 0 := by
    unfold readingSpeedsPositive at h
    omega
  unfold Validate
  rw [if_neg hc, if_pos hs]

/-- Past the first two rules, `Validate` is the password block followed by the
playback-rate check. -/
theorem Validate_past_speeds (s : SettingsForm) (hm : mandatoryFieldsPresent s)
    (hs : readingSpeedsPositive s) :
    s.Validate =
      if s.Confirmation = "" then validatePlaybackRate { s with Password := "" }
      else if s.Password ≠ "" then
        if s.Password ≠ s.Confirmation then
          (some (NewLocalizedError "error.different_passwords"), s)
        else validatePlaybackRate s
      else validatePlaybackRate s := by
  have hc : ¬ (s.Username = "" ∨ s.Theme = "" ∨ s.Language = "" ∨ s.Timezone = "" ∨
      s.EntryDirection = "" ∨ s.DisplayMode = "" ∨ s.DefaultHomePage = "") := by
    unfold mandatoryFieldsPresent at hm
    tauto
  have hs2 : ¬ (s.CJKReadingSpeed ≤ 0 ∨ s.DefaultReadingSpeed ≤ 0) := by
    unfold readingSpeedsPositive at hs
    omega
  unfold Validate
  rw [if_neg hc, if_neg hs2]

theorem Validate_mismatch (s : SettingsForm) (hm : mandatoryFieldsPresent s)
    (hs : readingSpeedsPositive s) (hp : passwordMismatch s) :
    s.Validate = (some (NewLocalizedError "error.different_passwords"), s) := by
  rw [Validate_past_speeds s hm hs, if_neg hp.1, if_pos hp.2.1, if_pos hp.2.2]

/-- Past the first three rules, `Validate` is the playback-rate check on the
form with the password cleared when the confirmation is empty. -/
theorem Validate_past_password (s : SettingsForm) (hm : mandatoryFieldsPresent s)
    (hs : readingSpeedsPositive s) (hp : ¬ passwordMismatch s) :
    s.Validate =
      validatePlaybackRate (if s.Confirmation = "" then { s with Password := "" } else s) := by
  rw [Validate_past_speeds s hm hs]
  unfold passwordMismatch at hp
  by_cases h1 : s.Confirmation = ""
  · rw [if_pos h1, if_pos h1]
  · rw [if_neg h1, if_neg h1]
    by_cases h2 : s.Password = ""
    · rw [if_neg (not_not.mpr h2)]
    · rw [if_pos h2]
      have h3 : s.Password = s.Confirmation := by tauto
      rw [if_neg (not_not.mpr h3)]

theorem validatePlaybackRate_snd (s : SettingsForm) : (validatePlaybackRate s).2 = s := by
  unfold validatePlaybackRate
  split <;> rfl

theorem validatePlaybackRate_fst_of_rate (s t : SettingsForm)
    (h : s.MediaPlaybackRate = t.MediaPlaybackRate) :
    (validatePlaybackRate s).1 = (validatePlaybackRate t).1 := by
  unfold validatePlaybackRate
  rw [h]
  split <;> rfl

/-- The error of `Validate` past the first three rules depends on the playback
rate alone. -/
theorem Validate_fst_past_password (s : SettingsForm) (hm : mandatoryFieldsPresent s)
    (hs : readingSpeedsPositive s) (hp : ¬ passwordMismatch s) :
    s.Validate.1 = (validatePlaybackRate s).1 := by
  rw [Validate_past_password s hm hs hp]
  apply validatePlaybackRate_fst_of_rate
  split <;> rfl

theorem validatePlaybackRate_fst_outside (s : SettingsForm)
    (h : (Float64.lt s.MediaPlaybackRate (.finite (1 / 4)) ||
      Float64.gt s.MediaPlaybackRate (.finite 4)) = true) :
    (validatePlaybackRate s).1 =
      some (NewLocalizedError "error.settings_media_playback_rate_range") := by
  unfold validatePlaybackRate
  rw [if_pos h]

theorem validatePlaybackRate_fst_inside (s : SettingsForm)
    (h : (Float64.lt s.MediaPlaybackRate (.finite (1 / 4)) ||
      Float64.gt s.MediaPlaybackRate (.finite 4)) = false) :
    (validatePlaybackRate s).1 = none := by
  unfold validatePlaybackRate
  rw [h]
  rfl

/-- Whenever the playback rate is not NaN, `Validate` returns the error of the
first violated rule of the specification. -/
theorem Validate_fst_eq_firstViolatedRule_of_ne_nan (s : SettingsForm)
    (h : s.MediaPlaybackRate ≠ .nan) : s.Validate.1 = firstViolatedRule s := by
  unfold firstViolatedRule
  by_cases hm : mandatoryFieldsPresent s
  · rw [if_neg (not_not.mpr hm)]
    by_cases hs : readingSpeedsPositive s
    · rw [if_neg (not_not.mpr hs)]
      by_cases hp : passwordMismatch s
      · rw [if_pos hp, Validate_mismatch s hm hs hp]
      · rw [if_neg hp, Validate_fst_past_password s hm hs hp]
        by_cases hr : playbackRateInRange s
        · rw [if_neg (not_not.mpr hr)]
          apply validatePlaybackRate_fst_inside
          unfold playbackRateInRange at hr
          have := (Float64.outside_iff_not_inClosedRange _ h).not
          simp only [hr, Bool.not_eq_true, reduceCtorEq, not_false_eq_true, iff_true] at this
          exact this
        · rw [if_pos hr]
          apply validatePlaybackRate_fst_outside
          unfold playbackRateInRange at hr
          exact (Float64.outside_iff_not_inClosedRange _ h).mpr (by simpa using hr)
    · rw [if_pos hs, Validate_readingSpeed s hm hs]
  · rw [if_pos hm, Validate_mandatory s hm]

/-- Whenever `Validate` returns no error and the playback rate is not NaN, the
rate lies in the closed range [0.25, 4]. -/
theorem playbackRateInRange_of_Validate_none_of_ne_nan (s : SettingsForm)
    (h : s.MediaPlaybackRate ≠ .nan) (hv : s.Validate.1 = none) :
    playbackRateInRange s := by
  rw [Validate_fst_eq_firstViolatedRule_of_ne_nan s h] at hv
  unfold firstViolatedRule at hv
  by_contra hr
  split_ifs at hv

theorem rangeError_ne_differentPasswords :
    NewLocalizedError "error.settings_media_playback_rate_range" ≠
      NewLocalizedError "error.different_passwords" := by
  decide

theorem validatePlaybackRate_fst_ne_differentPasswords (s : SettingsForm) :
    (validatePlaybackRate s).1 ≠ some (NewLocalizedError "error.different_passwords") := by
  unfold validatePlaybackRate
  split
  · intro h
    exact rangeError_ne_differentPasswords (Option.some.inj h)
  · intro h
    cases h

/-! ## Lemmas on `Merge` -/

/-- The user `Merge` returns, field by field. -/
theorem Merge_eq (s : SettingsForm) (u : User) :
    s.Merge u =
      { Username := s.Username
        Password := if s.Password ≠ "" then s.Password else u.Password
        Theme := s.Theme
        Language := s.Language
        Timezone := s.Timezone
        EntryDirection := s.EntryDirection
        EntryOrder := s.EntryOrder
        EntriesPerPage := s.EntriesPerPage
        KeyboardShortcuts := s.KeyboardShortcuts
        ShowReadingTime := s.ShowReadingTime
        Stylesheet := s.CustomCSS
        EntrySwipe := s.EntrySwipe
        GestureNav := s.GestureNav
        DisplayMode := s.DisplayMode
        CJKReadingSpeed := s.CJKReadingSpeed
        DefaultReadingSpeed := s.DefaultReadingSpeed
        DefaultHomePage := s.DefaultHomePage
        CategoriesSortingOrder := s.CategoriesSortingOrder
        MarkReadOnView := s.MarkReadOnView
        MediaPlaybackRate := s.MediaPlaybackRate
        BlockFilterEntryRules := s.BlockFilterEntryRules
        KeepFilterEntryRules := s.KeepFilterEntryRules } := by
  unfold Merge
  by_cases h : s.Password = ""
  · simp [h]
  · simp [h]

/-! ## Lemmas on the form `Validate` leaves -/

/-- The form after `Validate`: the password is cleared exactly on the paths
that get past the first two rules with an empty confirmation. -/
theorem Validate_snd_eq (s : SettingsForm) :
    s.Validate.2 =
      if mandatoryFieldsPresent s ∧ readingSpeedsPositive s ∧ s.Confirmation = "" then
        { s with Password := "" }
      else s := by
  by_cases hm : mandatoryFieldsPresent s
  · by_cases hs : readingSpeedsPositive s
    · by_cases hp : passwordMismatch s
      · rw [Validate_mismatch s hm hs hp, if_neg (fun h => hp.1 h.2.2)]
      · rw [Validate_past_password s hm hs hp, validatePlaybackRate_snd]
        by_cases hc : s.Confirmation = ""
        · rw [if_pos hc, if_pos ⟨hm, hs, hc⟩]
        · rw [if_neg hc, if_neg (fun h => hc h.2.2)]
    · rw [Validate_readingSpeed s hm hs, if_neg (fun h => hs h.2.1)]
  · rw [Validate_mandatory s hm, if_neg (fun h => hm h.1)]

/-- A call of `Validate` that returns no error got past the first three rules. -/
theorem rules_of_Validate_none (s : SettingsForm) (hv : s.Validate.1 = none) :
    mandatoryFieldsPresent s ∧ readingSpeedsPositive s ∧ ¬ passwordMismatch s := by
  by_cases hm : mandatoryFieldsPresent s
  · by_cases hs : readingSpeedsPositive s
    · by_cases hp : passwordMismatch s
      · rw [Validate_mismatch s hm hs hp] at hv
        cases hv
      · exact ⟨hm, hs, hp⟩
    · rw [Validate_readingSpeed s hm hs] at hv
      cases hv
  · rw [Validate_mandatory s hm] at hv
    cases hv

/-- The playback-rate check returns no error or the playback-rate error. -/
theorem validatePlaybackRate_fst_cases (s : SettingsForm) :
    (validatePlaybackRate s).1 = none ∨
      (validatePlaybackRate s).1 =
        some (NewLocalizedError "error.settings_media_playback_rate_range") := by
  unfold validatePlaybackRate
  split
  · exact Or.inr rfl
  · exact Or.inl rfl

theorem rangeError_ne_mandatoryFields :
    NewLocalizedError "error.settings_media_playback_rate_range" ≠
      NewLocalizedError "error.settings_mandatory_fields" := by
  decide

theorem rangeError_ne_readingSpeed :
    NewLocalizedError "error.settings_media_playback_rate_range" ≠
      NewLocalizedError "error.settings_reading_speed_is_positive" := by
  decide

/-- The playback-rate check is blind to the password. -/
theorem validatePlaybackRate_clear_password (s : SettingsForm) :
    validatePlaybackRate { s with Password := "" } =
      ((validatePlaybackRate s).1, { s with Password := "" }) := by
  unfold validatePlaybackRate
  split <;> rfl

/-- A form that satisfies the four rules gets no error. -/
theorem Validate_fst_none_of_rules (s : SettingsForm) (hm : mandatoryFieldsPresent s)
    (hs : readingSpeedsPositive s) (hp : ¬ passwordMismatch s)
    (hr : playbackRateInRange s) : s.Validate.1 = none := by
  have hnan : s.MediaPlaybackRate ≠ .nan := by
    intro h
    unfold playbackRateInRange at hr
    rw [h] at hr
    exact Bool.false_ne_true hr
  rw [Validate_fst_eq_firstViolatedRule_of_ne_nan s hnan]
  unfold firstViolatedRule
  rw [if_neg (not_not.mpr hm), if_neg (not_not.mpr hs), if_neg hp,
    if_neg (not_not.mpr hr)]

/-- The error `Validate` returns is a function of the twelve fields it reads. -/
theorem Validate_fst_congr (s t : SettingsForm)
    (hUsername : s.Username = t.Username) (hPassword : s.Password = t.Password)
    (hConfirmation : s.Confirmation = t.Confirmation) (hTheme : s.Theme = t.Theme)
    (hLanguage : s.Language = t.Language) (hTimezone : s.Timezone = t.Timezone)
    (hEntryDirection : s.EntryDirection = t.EntryDirection)
    (hDisplayMode : s.DisplayMode = t.DisplayMode)
    (hDefaultHomePage : s.DefaultHomePage = t.DefaultHomePage)
    (hDefaultReadingSpeed : s.DefaultReadingSpeed = t.DefaultReadingSpeed)
    (hCJKReadingSpeed : s.CJKReadingSpeed = t.CJKReadingSpeed)
    (hMediaPlaybackRate : s.MediaPlaybackRate = t.MediaPlaybackRate) :
    s.Validate.1 = t.Validate.1 := by
  unfold Validate validatePlaybackRate
  dsimp only
  rw [hUsername, hPassword, hConfirmation, hTheme, hLanguage, hTimezone, hEntryDirection,
    hDisplayMode, hDefaultHomePage, hDefaultReadingSpeed, hCJKReadingSpeed,
    hMediaPlaybackRate]
  split_ifs <;> rfl

/-- `Validate` leaves every field but the password as it was. -/
theorem Validate_snd_cases (s : SettingsForm) :
    s.Validate.2 = s ∨ s.Validate.2 = { s with Password := "" } := by
  rw [Validate_snd_eq]
  split
  · exact Or.inr rfl
  · exact Or.inl rfl

/-- Clearing the password changes the form exactly when it had one. -/
theorem clear_password_ne_iff (s : SettingsForm) :
    ({ s with Password := "" } : SettingsForm) ≠ s ↔ s.Password ≠ "" := by
  constructor
  · intro h hp
    apply h
    cases s
    cases hp
    rfl
  · intro h heq
    apply h
    have := congrArg SettingsForm.Password heq
    exact this.symm

/-- A second call of `Validate` on the form the first call left repeats the
first call. -/
theorem Validate_Validate (s : SettingsForm) : s.Validate.2.Validate = s.Validate := by
  by_cases hc : mandatoryFieldsPresent s ∧ readingSpeedsPositive s ∧ s.Confirmation = ""
  · obtain ⟨hm, hs, hconf⟩ := hc
    have hp : ¬ passwordMismatch s := fun h => h.1 hconf
    have hm2 : mandatoryFieldsPresent ({ s with Password := "" } : SettingsForm) := hm
    have hs2 : readingSpeedsPositive ({ s with Password := "" } : SettingsForm) := hs
    have hp2 : ¬ passwordMismatch ({ s with Password := "" } : SettingsForm) :=
      fun h => h.1 hconf
    have hconf2 : ({ s with Password := "" } : SettingsForm).Confirmation = "" := hconf
    rw [Validate_snd_eq, if_pos ⟨hm, hs, hconf⟩, Validate_past_password s hm hs hp,
      Validate_past_password _ hm2 hs2 hp2, if_pos hconf, if_pos hconf2]
  · rw [Validate_snd_eq, if_neg hc]

end SettingsForm

/-! ## Lemmas on the decoder -/

theorem isDecimalDigit_iff (c : Char) :
    isDecimalDigit c = true ↔ 48 ≤ c.toNat ∧ c.toNat ≤ 57 := by
  unfold isDecimalDigit
  rw [decide_eq_true_iff]
  rfl

/-- One turn of the loop on a decimal digit. -/
theorem parseUintLoop_cons_digit (maxVal : Nat) (c : Char) (cs : List Char) (n : Nat)
    (hc : isDecimalDigit c = true) :
    parseUintLoop maxVal (c :: cs) n =
      if n ≥ maxUint64 / 10 + 1 then (maxVal, some .ErrRange)
      else if (n * 10 % 2 ^ 64 + (c.toNat - 48)) % 2 ^ 64 < n * 10 % 2 ^ 64 ∨
          (n * 10 % 2 ^ 64 + (c.toNat - 48)) % 2 ^ 64 > maxVal then
        (maxVal, some .ErrRange)
      else parseUintLoop maxVal cs ((n * 10 % 2 ^ 64 + (c.toNat - 48)) % 2 ^ 64) := by
  have h := (isDecimalDigit_iff c).mp hc
  have h0 : '0'.toNat = 48 := rfl
  have h9 : '9'.toNat = 57 := rfl
  rw [parseUintLoop]
  simp only [h0, h9]
  rw [if_pos h]
  have hd : ¬ (c.toNat - 48 ≥ 10) := by omega
  simp only [hd, if_false]

/-- One turn of the loop on any other character. -/
theorem parseUintLoop_cons_not_digit (maxVal : Nat) (c : Char) (cs : List Char) (n : Nat)
    (hc : isDecimalDigit c = false) :
    parseUintLoop maxVal (c :: cs) n = (0, some .ErrSyntax) := by
  have h : ¬ (48 ≤ c.toNat ∧ c.toNat ≤ 57) := by
    rw [← isDecimalDigit_iff, hc]
    exact Bool.false_ne_true
  have h0 : '0'.toNat = 48 := rfl
  have h9 : '9'.toNat = 57 := rfl
  rw [parseUintLoop]
  simp only [h0, h9]
  rw [if_neg h]
  split
  · rfl
  · rename_i d hd
    split at hd
    · cases hd
      rw [if_pos (by omega)]
    · cases hd

theorem readDigits_nil (n : Nat) : readDigits n [] = n := rfl

theorem readDigits_cons (n : Nat) (c : Char) (cs : List Char) :
    readDigits n (c :: cs) = readDigits (n * 10 + (c.toNat - 48)) cs := rfl

theorem le_readDigits (cs : List Char) (n : Nat) : n ≤ readDigits n cs := by
  induction cs generalizing n with
  | nil => exact Nat.le_refl n
  | cons c cs ih =>
    rw [readDigits_cons]
    have := ih (n * 10 + (c.toNat - 48))
    omega

/-- The number read from 0 is the number the digits denote in base ten. -/
theorem readDigits_eq_ofDigits (cs : List Char) (n : Nat) :
    readDigits n cs =
      n * 10 ^ cs.length + Nat.ofDigits 10 (cs.reverse.map (fun c => c.toNat - '0'.toNat)) := by
  induction cs generalizing n with
  | nil => simp [readDigits_nil]
  | cons c cs ih =>
    rw [readDigits_cons, ih, List.reverse_cons, List.map_append, Nat.ofDigits_append,
      List.length_map, List.length_reverse, List.map_singleton, Nat.ofDigits_singleton,
      List.length_cons]
    have h0 : '0'.toNat = 48 := rfl
    rw [h0]
    ring

/-- On a string of decimal digits the loop returns the number read when it is
at most `maxVal`, and `maxVal` with a range error otherwise. -/
theorem parseUintLoop_digits (maxVal : Nat) (hmax : maxVal < 2 ^ 64) (cs : List Char)
    (hall : cs.all isDecimalDigit = true) (n : Nat) (hn : n ≤ maxVal) :
    parseUintLoop maxVal cs n =
      if readDigits n cs ≤ maxVal then (readDigits n cs, none)
      else (maxVal, some .ErrRange) := by
  induction cs generalizing n with
  | nil =>
    rw [readDigits_nil, if_pos hn]
    rfl
  | cons c cs ih =>
    rw [List.all_cons, Bool.and_eq_true] at hall
    have hd := (isDecimalDigit_iff c).mp hall.1
    have hle := le_readDigits cs (n * 10 + (c.toNat - 48))
    rw [parseUintLoop_cons_digit maxVal c cs n hall.1, readDigits_cons]
    unfold maxUint64
    by_cases h1 : n ≥ (2 ^ 64 - 1) / 10 + 1
    · rw [if_pos h1, if_neg (by omega)]
    · rw [if_neg h1]
      have hmul : n * 10 % 2 ^ 64 = n * 10 := Nat.mod_eq_of_lt (by omega)
      rw [hmul]
      by_cases h2 : n * 10 + (c.toNat - 48) < 2 ^ 64
      · rw [Nat.mod_eq_of_lt h2]
        by_cases h3 : n * 10 + (c.toNat - 48) > maxVal
        · rw [if_pos (Or.inr h3), if_neg (by omega)]
        · rw [if_neg (by omega)]
          exact ih hall.2 _ (by omega)
      · have h4 : (n * 10 + (c.toNat - 48)) % 2 ^ 64 < n * 10 := by omega
        rw [if_pos (Or.inl h4), if_neg (by omega)]

/-- On a string with a character that is not a decimal digit the loop returns
an error: the syntax error, or the range error met before that character. -/
theorem parseUintLoop_not_digits (maxVal : Nat) (cs : List Char)
    (hall : cs.all isDecimalDigit = false) (n : Nat) :
    parseUintLoop maxVal cs n = (0, some .ErrSyntax) ∨
      parseUintLoop maxVal cs n = (maxVal, some .ErrRange) := by
  induction cs generalizing n with
  | nil => simp at hall
  | cons c cs ih =>
    by_cases hc : isDecimalDigit c = true
    · rw [List.all_cons, hc, Bool.true_and] at hall
      rw [parseUintLoop_cons_digit maxVal c cs n hc]
      split
      · exact Or.inr rfl
      · split
        · exact Or.inr rfl
        · exact ih hall _
    · rw [Bool.not_eq_true] at hc
      rw [parseUintLoop_cons_not_digit maxVal c cs n hc]
      exact Or.inl rfl

/-- The `maxVal` of `ParseUint` on a platform with 32 or 64 bit integers. -/
theorem maxVal_eq (w : Nat) (hw : w = 32 ∨ w = 64) :
    (2 ^ w % 2 ^ 64 + 2 ^ 64 - 1) % 2 ^ 64 = 2 ^ w - 1 := by
  rcases hw with h | h <;> subst h <;> norm_num

theorem decimalNat_eq_some (cs : List Char) (h1 : cs ≠ [])
    (h2 : cs.all isDecimalDigit = true) : decimalNat cs = some (readDigits 0 cs) := by
  unfold decimalNat
  rw [if_pos ⟨h1, h2⟩, readDigits_eq_ofDigits, Nat.zero_mul, Nat.zero_add]

theorem decimalNat_eq_none (cs : List Char)
    (h : cs = [] ∨ cs.all isDecimalDigit = false) : decimalNat cs = none := by
  unfold decimalNat
  rw [if_neg]
  rintro ⟨h1, h2⟩
  rcases h with h | h
  · exact h1 h
  · rw [h2] at h
    cases h

/-- `ParseUint` on a string that denotes the natural number `v`. -/
theorem ParseUint_of_decimalNat (w : Nat) (hw : w = 32 ∨ w = 64) (cs : List Char) (v : Nat)
    (h : decimalNat cs = some v) :
    ParseUint w cs = if v ≤ 2 ^ w - 1 then (v, none) else (2 ^ w - 1, some .ErrRange) := by
  unfold decimalNat at h
  split at h
  · rename_i hc
    have hv : v = readDigits 0 cs := by
      rw [readDigits_eq_ofDigits, Nat.zero_mul, Nat.zero_add]
      exact (Option.some.inj h).symm
    unfold ParseUint
    rw [if_neg hc.1]
    simp only [maxVal_eq w hw]
    rw [hv]
    apply parseUintLoop_digits _ _ cs hc.2 0 (Nat.zero_le _)
    rcases hw with h | h <;> subst h <;> norm_num
  · cases h

/-- `ParseUint` on a string that denotes no natural number. -/
theorem ParseUint_of_decimalNat_none (w : Nat) (hw : w = 32 ∨ w = 64) (cs : List Char)
    (h : decimalNat cs = none) :
    ParseUint w cs = (0, some .ErrSyntax) ∨ ParseUint w cs = (2 ^ w - 1, some .ErrRange) := by
  unfold ParseUint
  by_cases hc : cs = []
  · rw [if_pos hc]
    exact Or.inl rfl
  · rw [if_neg hc]
    simp only [maxVal_eq w hw]
    apply parseUintLoop_not_digits
    by_contra hall
    rw [Bool.not_eq_false] at hall
    rw [decimalNat_eq_some cs hc hall] at h
    cases h

theorem toInt_zero (w : Nat) (hw : w = 32 ∨ w = 64) : toInt w 0 = 0 := by
  rcases hw with h | h <;> subst h <;> unfold toInt <;> norm_num

/-- The conversion to int64 keeps a value that an int64 holds. -/
theorem toInt64_eq_self (x : Int) (h1 : -9223372036854775808 ≤ x)
    (h2 : x < 9223372036854775808) : toInt64 x = x := by
  unfold toInt64
  omega

/-- The conversion to int keeps a value that an int holds. -/
theorem toInt_eq_self (w : Nat) (hw : w = 32 ∨ w = 64) (x : Int)
    (h1 : -2 ^ (w - 1) ≤ x) (h2 : x < 2 ^ (w - 1)) : toInt w x = x := by
  unfold toInt
  rcases hw with h | h <;> subst h <;> norm_num at h1 h2 ⊢ <;> omega

/-- The second half of `ParseInt` when `ParseUint` returns a number. -/
theorem parseIntSigned_of_value (w : Nat) (neg : Bool) (rest : List Char) (v : Nat)
    (h : ParseUint w rest = (v, none)) :
    parseIntSigned w neg rest =
      if neg = false ∧ v ≥ 2 ^ (w - 1) % 2 ^ 64 then
        (toInt64 ((2 ^ (w - 1) % 2 ^ 64 - 1 : Nat) : Int), some .ErrRange)
      else if neg = true ∧ v > 2 ^ (w - 1) % 2 ^ 64 then
        (toInt64 (-toInt64 ((2 ^ (w - 1) % 2 ^ 64 : Nat) : Int)), some .ErrRange)
      else
        (if neg = true then toInt64 (-toInt64 (v : Int)) else toInt64 (v : Int), none) := by
  unfold parseIntSigned
  rw [h]
  dsimp only
  rw [if_neg (fun hh => hh.1 rfl)]

/-- The second half of `ParseInt` when `ParseUint` returns an error. -/
theorem parseIntSigned_of_error (w : Nat) (hw : w = 32 ∨ w = 64) (neg : Bool)
    (rest : List Char)
    (h : ParseUint w rest = (0, some .ErrSyntax) ∨
      ParseUint w rest = (2 ^ w - 1, some .ErrRange)) :
    (parseIntSigned w neg rest).2 ≠ none := by
  unfold parseIntSigned
  rcases h with h | h
  · rw [h]
    dsimp only
    rw [if_pos ⟨by decide, by decide⟩]
    dsimp only
    decide
  · rw [h]
    dsimp only
    rw [if_neg (fun hh => hh.2 rfl)]
    cases neg
    · have hc : (2 : Nat) ^ w - 1 ≥ 2 ^ (w - 1) % 2 ^ 64 := by
        rcases hw with hw | hw <;> subst hw <;> norm_num
      rw [if_pos ⟨rfl, hc⟩]
      dsimp only
      decide
    · have hc : (2 : Nat) ^ w - 1 > 2 ^ (w - 1) % 2 ^ 64 := by
        rcases hw with hw | hw <;> subst hw <;> norm_num
      rw [if_neg (fun hh => Bool.noConfusion hh.1), if_pos ⟨rfl, hc⟩]
      dsimp only
      decide

/-- The decoded field when the second half of `ParseInt` returns a value. -/
theorem decoded_of_value (w : Nat) (p : Int × Option NumError) (x : Int)
    (h : p = (x, none)) : toInt w (if p.2 ≠ none then 0 else p.1) = toInt w x := by
  rw [h]
  dsimp only
  rw [if_neg (not_not.mpr rfl)]

/-- The decoded field when the second half of `ParseInt` returns an error. -/
theorem decoded_of_error (w : Nat) (hw : w = 32 ∨ w = 64) (p : Int × Option NumError)
    (h : p.2 ≠ none) : toInt w (if p.2 ≠ none then 0 else p.1) = 0 := by
  rw [if_pos h, toInt_zero w hw]

/-- The field decoded from the characters after a `+` or no sign. -/
theorem parseIntSigned_false (w : Nat) (hw : w = 32 ∨ w = 64) (rest : List Char) :
    toInt w (if (parseIntSigned w false rest).2 ≠ none then 0
        else (parseIntSigned w false rest).1) =
      match (decimalNat rest).map (fun (n : Nat) => (n : Int)) with
      | some v => if -2 ^ (w - 1) ≤ v ∧ v < 2 ^ (w - 1) then v else 0
      | none => 0 := by
  cases h : decimalNat rest with
  | none =>
    rw [decoded_of_error w hw _ (parseIntSigned_of_error w hw false rest
      (ParseUint_of_decimalNat_none w hw rest h))]
    rfl
  | some v =>
    have h1 := ParseUint_of_decimalNat w hw rest v h
    show _ = if -2 ^ (w - 1) ≤ (v : Int) ∧ (v : Int) < 2 ^ (w - 1) then (v : Int) else 0
    by_cases hv : v ≤ 2 ^ w - 1
    · rw [if_pos hv] at h1
      have hp := parseIntSigned_of_value w false rest v h1
      by_cases hv2 : v < 2 ^ (w - 1)
      · have hc : ¬ (false = false ∧ v ≥ 2 ^ (w - 1) % 2 ^ 64) := by
          rcases hw with hw | hw <;> subst hw <;> norm_num at hv2 ⊢ <;> omega
        have hr1 : -2 ^ (w - 1) ≤ (v : Int) := by
          rcases hw with hw | hw <;> subst hw <;> norm_num <;> omega
        have hr2 : (v : Int) < 2 ^ (w - 1) := by exact_mod_cast hv2
        have h64 : toInt64 (v : Int) = v := by
          apply toInt64_eq_self
          · omega
          · rcases hw with hw | hw <;> subst hw <;> norm_num at hv2 <;> omega
        rw [if_neg hc] at hp
        simp only [Bool.false_eq_true, false_and, if_false] at hp
        rw [decoded_of_value w _ _ hp, if_pos ⟨hr1, hr2⟩, h64]
        exact toInt_eq_self w hw _ hr1 hr2
      · have hc : false = false ∧ v ≥ 2 ^ (w - 1) % 2 ^ 64 := by
          rcases hw with hw | hw <;> subst hw <;> norm_num at hv2 ⊢ <;> omega
        have hr2 : ¬ (-2 ^ (w - 1) ≤ (v : Int) ∧ (v : Int) < 2 ^ (w - 1)) := by
          intro hh
          exact hv2 (by exact_mod_cast hh.2)
        rw [if_pos hc] at hp
        have hp2 : (parseIntSigned w false rest).2 ≠ none := by
          rw [hp]
          exact Option.some_ne_none _
        rw [decoded_of_error w hw _ hp2, if_neg hr2]
    · rw [if_neg hv] at h1
      have hr2 : ¬ (-2 ^ (w - 1) ≤ (v : Int) ∧ (v : Int) < 2 ^ (w - 1)) := by
        intro hh
        have hh2 : v < 2 ^ (w - 1) := by exact_mod_cast hh.2
        rcases hw with hw | hw <;> subst hw <;> norm_num at hv hh2 <;> omega
      rw [decoded_of_error w hw _ (parseIntSigned_of_error w hw false rest (Or.inr h1)),
        if_neg hr2]

/-- The field decoded from the characters after a `-`. -/
theorem parseIntSigned_true (w : Nat) (hw : w = 32 ∨ w = 64) (rest : List Char) :
    toInt w (if (parseIntSigned w true rest).2 ≠ none then 0
        else (parseIntSigned w true rest).1) =
      match (decimalNat rest).map (fun (n : Nat) => -(n : Int)) with
      | some v => if -2 ^ (w - 1) ≤ v ∧ v < 2 ^ (w - 1) then v else 0
      | none => 0 := by
  cases h : decimalNat rest with
  | none =>
    rw [decoded_of_error w hw _ (parseIntSigned_of_error w hw true rest
      (ParseUint_of_decimalNat_none w hw rest h))]
    rfl
  | some v =>
    have h1 := ParseUint_of_decimalNat w hw rest v h
    show _ = if -2 ^ (w - 1) ≤ -(v : Int) ∧ -(v : Int) < 2 ^ (w - 1) then -(v : Int) else 0
    have hnf : ¬ (true = false ∧ v ≥ 2 ^ (w - 1) % 2 ^ 64) := fun hh => Bool.noConfusion hh.1
    by_cases hv : v ≤ 2 ^ w - 1
    · rw [if_pos hv] at h1
      have hp := parseIntSigned_of_value w true rest v h1
      rw [if_neg hnf] at hp
      by_cases hv2 : v ≤ 2 ^ (w - 1)
      · have hc : ¬ (true = true ∧ v > 2 ^ (w - 1) % 2 ^ 64) := by
          rcases hw with hw | hw <;> subst hw <;> norm_num at hv2 ⊢ <;> omega
        have hv3 : (v : Int) ≤ 2 ^ (w - 1) := by exact_mod_cast hv2
        have hr1 : -2 ^ (w - 1) ≤ -(v : Int) := by omega
        have hr2 : -(v : Int) < 2 ^ (w - 1) := by
          rcases hw with hw | hw <;> subst hw <;> norm_num <;> omega
        have h64 : toInt64 (-toInt64 (v : Int)) = -(v : Int) := by
          unfold toInt64
          rcases hw with hw | hw <;> subst hw <;> norm_num at hv3 <;> omega
        rw [if_neg hc] at hp
        simp only [if_true] at hp
        rw [decoded_of_value w _ _ hp, if_pos ⟨hr1, hr2⟩, h64]
        exact toInt_eq_self w hw _ hr1 hr2
      · have hc : true = true ∧ v > 2 ^ (w - 1) % 2 ^ 64 := by
          rcases hw with hw | hw <;> subst hw <;> norm_num at hv2 ⊢ <;> omega
        have hr1 : ¬ (-2 ^ (w - 1) ≤ -(v : Int) ∧ -(v : Int) < 2 ^ (w - 1)) := by
          intro hh
          have hh2 : (v : Int) ≤ 2 ^ (w - 1) := by omega
          exact hv2 (by exact_mod_cast hh2)
        rw [if_pos hc] at hp
        have hp2 : (parseIntSigned w true rest).2 ≠ none := by
          rw [hp]
          exact Option.some_ne_none _
        rw [decoded_of_error w hw _ hp2, if_neg hr1]
    · rw [if_neg hv] at h1
      have hr1 : ¬ (-2 ^ (w - 1) ≤ -(v : Int) ∧ -(v : Int) < 2 ^ (w - 1)) := by
        intro hh
        have hh2 : (v : Int) ≤ 2 ^ (w - 1) := by omega
        have hh3 : v ≤ 2 ^ (w - 1) := by exact_mod_cast hh2
        rcases hw with hw | hw <;> subst hw <;> norm_num at hv hh3 <;> omega
      rw [decoded_of_error w hw _ (parseIntSigned_of_error w hw true rest (Or.inr h1)),
        if_neg hr1]

/-- The code of the decoder for an integer field, `ParseInt` followed by the
fallback to 0 on an error and the conversion to `int`, computes the field the
specification asks for. -/
theorem decode_eq_decodedInt (w : Nat) (hw : w = 32 ∨ w = 64) (s : String) :
    toInt w (if (ParseInt w s).2 ≠ none then 0 else (ParseInt w s).1) =
      decodedInt w s := by
  unfold ParseInt decodedInt decimalInt
  cases s.data with
  | nil =>
    dsimp only
    rw [if_pos (Option.some_ne_none _)]
    exact toInt_zero w hw
  | cons c cs =>
    dsimp only
    by_cases h1 : c = '+'
    · simp only [if_pos h1]
      exact parseIntSigned_false w hw cs
    · simp only [if_neg h1]
      by_cases h2 : c = '-'
      · simp only [if_pos h2]
        exact parseIntSigned_true w hw cs
      · simp only [if_neg h2]
        exact parseIntSigned_false w hw (c :: cs)

/-- A key without a value reads as the empty string. -/
theorem FormValue_absent (r : Request) (key : String) (h : r.Form key = []) :
    r.FormValue key = "" := by
  unfold Request.FormValue
  rw [h]

/-- The empty string is a syntax error for `ParseFloat`. -/
theorem ParseFloat_empty (lib : Strconv) : (ParseFloat lib "").2 ≠ none := by
  intro h
  cases h

/-- The text "NaN" is read as NaN, without an error. -/
theorem ParseFloat_NaN (lib : Strconv) : ParseFloat lib "NaN" = (.nan, none) := by
  rfl

/-- The text "Inf" is read as positive infinity, without an error. -/
theorem ParseFloat_Inf (lib : Strconv) : ParseFloat lib "Inf" = (.posInf, none) := by
  rfl

/-- A form whose playback rate is 1 does not get the playback-rate error. -/
theorem Validate_rate_one (s : SettingsForm) (h : s.MediaPlaybackRate = .finite 1) :
    s.Validate.1 ≠ some (NewLocalizedError "error.settings_media_playback_rate_range") := by
  by_cases hm : mandatoryFieldsPresent s
  · by_cases hs : readingSpeedsPositive s
    · by_cases hp : passwordMismatch s
      · rw [SettingsForm.Validate_mismatch s hm hs hp]
        intro hh
        exact SettingsForm.rangeError_ne_differentPasswords (Option.some.inj hh).symm
      · rw [SettingsForm.Validate_fst_past_password s hm hs hp,
          SettingsForm.validatePlaybackRate_fst_inside s]
        · intro hh
          cases hh
        · rw [h, Bool.or_eq_false_iff, ← Bool.not_eq_true, ← Bool.not_eq_true,
            Float64.lt_finite_iff, Float64.gt_finite_iff]
          constructor <;> norm_num
    · rw [SettingsForm.Validate_readingSpeed s hm hs]
      intro hh
      exact SettingsForm.rangeError_ne_readingSpeed (Option.some.inj hh).symm
  · rw [SettingsForm.Validate_mandatory s hm]
    intro hh
    exact SettingsForm.rangeError_ne_mandatoryFields (Option.some.inj hh).symm

/-! ## The claims -/

open SettingsForm

/-- C1 (evaluated at the failing input): on the sample form with a playback rate
of NaN, `Validate` returns no error although the first violated rule of the
specification is the playback-rate rule, so `Validate` does not return the error
of the first violated rule for every form. -/
theorem Validate_nan_differs_from_firstViolatedRule :
    nanForm.Validate.1 = none ∧
      firstViolatedRule nanForm =
        some (NewLocalizedError "error.settings_media_playback_rate_range") ∧
      nanForm.Validate.1 ≠ firstViolatedRule nanForm := by
  refine ⟨by decide, by decide, by decide⟩

/-- C2: a form in which one of the seven mandatory fields is the empty string
gets the mandatory-fields error from `Validate`, whatever its other fields. -/
theorem Validate_mandatory_field_empty (s : SettingsForm)
    (h : s.Username = "" ∨ s.Theme = "" ∨ s.Language = "" ∨ s.Timezone = "" ∨
      s.EntryDirection = "" ∨ s.DisplayMode = "" ∨ s.DefaultHomePage = "") :
    s.Validate.1 = some (NewLocalizedError "error.settings_mandatory_fields") := by
  unfold Validate
  rw [if_pos h]

/-- C2 witness: the sample form with an empty theme, a reading speed of -3 and
mismatched passwords. -/
theorem Validate_mandatory_field_empty_witness :
    ({ sampleForm with
        Theme := "", CJKReadingSpeed := -3, Password := "a", Confirmation := "b" } :
        SettingsForm).Validate.1 =
      some (NewLocalizedError "error.settings_mandatory_fields") :=
  Validate_mandatory_field_empty _ (Or.inr (Or.inl rfl))

/-- C3 as stated fails: the form with an empty username and a default reading
speed of 0 has a reading speed that is not positive, and `Validate` returns the
mandatory-fields error, not the reading-speed error. -/
theorem Validate_zero_speed_without_username :
    (noUsernameZeroSpeedForm.DefaultReadingSpeed ≤ 0 ∨
        noUsernameZeroSpeedForm.CJKReadingSpeed ≤ 0) ∧
      noUsernameZeroSpeedForm.Validate.1 =
        some (NewLocalizedError "error.settings_mandatory_fields") ∧
      noUsernameZeroSpeedForm.Validate.1 ≠
        some (NewLocalizedError "error.settings_reading_speed_is_positive") := by
  refine ⟨by decide, by decide, by decide⟩

/-- C3 (amended): a form whose seven mandatory fields are all non-empty and whose
DefaultReadingSpeed or CJKReadingSpeed is at most 0 gets the reading-speed error
from `Validate`. -/
theorem Validate_reading_speed_not_positive (s : SettingsForm)
    (hm : mandatoryFieldsPresent s)
    (h : s.DefaultReadingSpeed ≤ 0 ∨ s.CJKReadingSpeed ≤ 0) :
    s.Validate.1 = some (NewLocalizedError "error.settings_reading_speed_is_positive") := by
  have hs : ¬ readingSpeedsPositive s := by
    unfold readingSpeedsPositive
    omega
  rw [Validate_readingSpeed s hm hs]

/-- C3 witness: the sample form with a CJK reading speed of -5 and a playback
rate of NaN. -/
theorem Validate_reading_speed_not_positive_witness :
    ({ sampleForm with CJKReadingSpeed := -5, MediaPlaybackRate := .nan } :
        SettingsForm).Validate.1 =
      some (NewLocalizedError "error.settings_reading_speed_is_positive") :=
  Validate_reading_speed_not_positive _ (by decide) (Or.inr (by decide))

/-- C4: for a form whose mandatory fields are non-empty and whose reading speeds
are positive, `Validate` returns the password-mismatch error exactly when
Password and Confirmation are both non-empty and unequal; it does not return it
when Confirmation is empty, Password is empty or the two are equal. -/
theorem Validate_different_passwords_iff (s : SettingsForm)
    (hm : mandatoryFieldsPresent s) (hs : readingSpeedsPositive s) :
    (s.Validate.1 = some (NewLocalizedError "error.different_passwords") ↔
        (s.Password ≠ "" ∧ s.Confirmation ≠ "" ∧ s.Password ≠ s.Confirmation)) ∧
      (s.Confirmation = "" ∨ s.Password = "" ∨ s.Password = s.Confirmation →
        s.Validate.1 ≠ some (NewLocalizedError "error.different_passwords")) := by
  have key : s.Validate.1 = some (NewLocalizedError "error.different_passwords") ↔
      (s.Password ≠ "" ∧ s.Confirmation ≠ "" ∧ s.Password ≠ s.Confirmation) := by
    constructor
    · intro hv
      by_contra hn
      have hp : ¬ passwordMismatch s := by
        unfold passwordMismatch
        tauto
      rw [Validate_fst_past_password s hm hs hp] at hv
      exact validatePlaybackRate_fst_ne_differentPasswords s hv
    · intro hp
      rw [Validate_mismatch s hm hs ⟨hp.2.1, hp.1, hp.2.2⟩]
  refine ⟨key, ?_⟩
  intro h hv
  have := key.mp hv
  tauto

/-- C4 witness: the sample form with password "abc" and confirmation "xyz". -/
theorem Validate_different_passwords_iff_witness :
    (({ sampleForm with Password := "abc", Confirmation := "xyz" } :
        SettingsForm).Validate.1 = some (NewLocalizedError "error.different_passwords") ↔
      (("abc" : String) ≠ "" ∧ ("xyz" : String) ≠ "" ∧ ("abc" : String) ≠ "xyz")) ∧
    (sampleForm.Validate.1 ≠ some (NewLocalizedError "error.different_passwords")) :=
  ⟨(Validate_different_passwords_iff
      { sampleForm with Password := "abc", Confirmation := "xyz" }
      (by decide) (by decide)).1,
    (Validate_different_passwords_iff sampleForm (by decide) (by decide)).2
      (Or.inl rfl)⟩

/-- C5: for a form with an empty Confirmation and any Password, whose mandatory
fields are non-empty, whose reading speeds are positive and whose playback rate
lies in [0.25, 4], `Validate` returns no error and leaves Password empty. -/
theorem Validate_empty_confirmation_clears_password (s : SettingsForm)
    (hc : s.Confirmation = "") (hm : mandatoryFieldsPresent s)
    (hs : readingSpeedsPositive s) (hr : playbackRateInRange s) :
    s.Validate.1 = none ∧ s.Validate.2.Password = "" := by
  have hp : ¬ passwordMismatch s := fun h => h.1 hc
  have hnan : s.MediaPlaybackRate ≠ .nan := by
    intro h
    unfold playbackRateInRange at hr
    rw [h] at hr
    exact Bool.false_ne_true hr
  constructor
  · rw [Validate_fst_eq_firstViolatedRule_of_ne_nan s hnan]
    unfold firstViolatedRule
    rw [if_neg (not_not.mpr hm), if_neg (not_not.mpr hs), if_neg hp,
      if_neg (not_not.mpr hr)]
  · rw [Validate_past_password s hm hs hp, if_pos hc, validatePlaybackRate_snd]

/-- C5 witness: the sample form with the password "anything" and no
confirmation. -/
theorem Validate_empty_confirmation_clears_password_witness :
    ({ sampleForm with Password := "anything" } : SettingsForm).Validate.1 = none ∧
      ({ sampleForm with Password := "anything" } : SettingsForm).Validate.2.Password = "" :=
  Validate_empty_confirmation_clears_password
    { sampleForm with Password := "anything" } rfl (by decide) (by decide)
    (by norm_num [playbackRateInRange, Float64.inClosedRange, sampleForm])

/-- C6: for a form that passes the mandatory-field, reading-speed and password
rules and whose playback rate is the finite number r, `Validate` returns the
playback-rate error if r < 0.25 or r > 4, and no error if 0.25 ≤ r ≤ 4. -/
theorem Validate_finite_playback_rate (s : SettingsForm) (r : ℚ)
    (hm : mandatoryFieldsPresent s) (hs : readingSpeedsPositive s)
    (hp : ¬ passwordMismatch s) (hr : s.MediaPlaybackRate = .finite r) :
    (r < 1 / 4 ∨ 4 < r →
        s.Validate.1 = some (NewLocalizedError "error.settings_media_playback_rate_range")) ∧
      (1 / 4 ≤ r ∧ r ≤ 4 → s.Validate.1 = none) := by
  rw [Validate_fst_past_password s hm hs hp]
  constructor
  · intro h
    apply validatePlaybackRate_fst_outside
    rw [hr, Bool.or_eq_true, Float64.lt_finite_iff, Float64.gt_finite_iff]
    exact h
  · intro h
    apply validatePlaybackRate_fst_inside
    rw [hr, Bool.or_eq_false_iff, ← Bool.not_eq_true, ← Bool.not_eq_true,
      Float64.lt_finite_iff, Float64.gt_finite_iff]
    exact ⟨not_lt.mpr h.1, not_lt.mpr h.2⟩

/-- C6 witness: on the sample form, the float64 nearest to 0.1 and the rate 5
are rejected, and the rates 0.25, 1 and 4 are accepted. -/
theorem Validate_finite_playback_rate_witness :
    ({ sampleForm with
        MediaPlaybackRate := .finite (3602879701896397 / 36028797018963968) } :
        SettingsForm).Validate.1 =
      some (NewLocalizedError "error.settings_media_playback_rate_range") ∧
    ({ sampleForm with MediaPlaybackRate := .finite 5 } : SettingsForm).Validate.1 =
      some (NewLocalizedError "error.settings_media_playback_rate_range") ∧
    ({ sampleForm with MediaPlaybackRate := .finite (1 / 4) } : SettingsForm).Validate.1 =
      none ∧
    ({ sampleForm with MediaPlaybackRate := .finite 1 } : SettingsForm).Validate.1 = none ∧
    ({ sampleForm with MediaPlaybackRate := .finite 4 } : SettingsForm).Validate.1 = none :=
  ⟨(Validate_finite_playback_rate _ _ (by decide) (by decide) (by decide) rfl).1
      (Or.inl (by norm_num)),
    (Validate_finite_playback_rate _ _ (by decide) (by decide) (by decide) rfl).1
      (Or.inr (by norm_num)),
    (Validate_finite_playback_rate _ _ (by decide) (by decide) (by decide) rfl).2
      ⟨by norm_num, by norm_num⟩,
    (Validate_finite_playback_rate _ _ (by decide) (by decide) (by decide) rfl).2
      ⟨by norm_num, by norm_num⟩,
    (Validate_finite_playback_rate _ _ (by decide) (by decide) (by decide) rfl).2
      ⟨by norm_num, by norm_num⟩⟩

/-- C7 (evaluated at the failing input): on the sample form with a playback
rate of NaN, `Validate` returns no error although the rate does not lie in the
closed range [0.25, 4]. -/
theorem Validate_accepts_nan_playback_rate :
    nanForm.MediaPlaybackRate = .nan ∧ nanForm.Validate.1 = none ∧
      ¬ playbackRateInRange nanForm := by
  refine ⟨rfl, by decide, by decide⟩

/-- C8: the user returned by `Merge` has the form's Password, unchanged, as its
stored password when the form's Password is non-empty, and keeps its previous
stored password when the form's Password is empty. -/
theorem Merge_password (s : SettingsForm) (u : User) :
    (s.Password ≠ "" → (s.Merge u).Password = s.Password) ∧
      (s.Password = "" → (s.Merge u).Password = u.Password) := by
  rw [Merge_eq]
  constructor
  · intro h
    exact if_pos h
  · intro h
    exact if_neg (not_not.mpr h)

/-- C8 witness: merging the sample form with the password "abc" stores "abc";
merging the sample form, whose password is empty, keeps "stored-hash". -/
theorem Merge_password_witness :
    (({ sampleForm with Password := "abc", Confirmation := "abc" } : SettingsForm).Merge
        sampleUser).Password = "abc" ∧
      (sampleForm.Merge sampleUser).Password = "stored-hash" :=
  ⟨(Merge_password { sampleForm with Password := "abc", Confirmation := "abc" }
      sampleUser).1 (by decide),
    (Merge_password sampleForm sampleUser).2 rfl⟩

/-- C9: after `Merge`, each of the 21 preference fields of the user equals the
corresponding field of the form (Stylesheet takes CustomCSS), whatever the
previous values of the user were. -/
theorem Merge_preference_fields (s : SettingsForm) (u : User) :
    (s.Merge u).Username = s.Username ∧
    (s.Merge u).Theme = s.Theme ∧
    (s.Merge u).Language = s.Language ∧
    (s.Merge u).Timezone = s.Timezone ∧
    (s.Merge u).EntryDirection = s.EntryDirection ∧
    (s.Merge u).EntryOrder = s.EntryOrder ∧
    (s.Merge u).EntriesPerPage = s.EntriesPerPage ∧
    (s.Merge u).KeyboardShortcuts = s.KeyboardShortcuts ∧
    (s.Merge u).ShowReadingTime = s.ShowReadingTime ∧
    (s.Merge u).Stylesheet = s.CustomCSS ∧
    (s.Merge u).EntrySwipe = s.EntrySwipe ∧
    (s.Merge u).GestureNav = s.GestureNav ∧
    (s.Merge u).DisplayMode = s.DisplayMode ∧
    (s.Merge u).CJKReadingSpeed = s.CJKReadingSpeed ∧
    (s.Merge u).DefaultReadingSpeed = s.DefaultReadingSpeed ∧
    (s.Merge u).DefaultHomePage = s.DefaultHomePage ∧
    (s.Merge u).CategoriesSortingOrder = s.CategoriesSortingOrder ∧
    (s.Merge u).MarkReadOnView = s.MarkReadOnView ∧
    (s.Merge u).MediaPlaybackRate = s.MediaPlaybackRate ∧
    (s.Merge u).BlockFilterEntryRules = s.BlockFilterEntryRules ∧
    (s.Merge u).KeepFilterEntryRules = s.KeepFilterEntryRules := by
  rw [Merge_eq]
  exact ⟨rfl, rfl, rfl, rfl, rfl, rfl, rfl, rfl, rfl, rfl, rfl, rfl, rfl, rfl, rfl, rfl,
    rfl, rfl, rfl, rfl, rfl⟩

/-- C10: `Merge` is idempotent: merging the same form a second time into the
user returned by the first merge gives that same user, stored password
included. -/
theorem Merge_idempotent (s : SettingsForm) (u : User) :
    s.Merge (s.Merge u) = s.Merge u := by
  rw [Merge_eq s (s.Merge u), Merge_eq s u]
  by_cases h : s.Password = ""
  · simp [h]
  · simp [h]

/-- C11: for a form with an empty Confirmation on which `Validate` returns no
error, `Validate` followed by `Merge` leaves the stored password of the user as
it was, whatever the form's Password was. -/
theorem Validate_Merge_empty_confirmation_keeps_password (s : SettingsForm) (u : User)
    (hc : s.Confirmation = "") (hv : s.Validate.1 = none) :
    (s.Validate.2.Merge u).Password = u.Password := by
  obtain ⟨hm, hs, _⟩ := rules_of_Validate_none s hv
  rw [Validate_snd_eq, if_pos ⟨hm, hs, hc⟩, Merge_eq]
  rfl

/-- C11 witness: the sample form with the password "autofilled" and no
confirmation, and the sample form itself, whose password is empty. -/
theorem Validate_Merge_empty_confirmation_keeps_password_witness :
    ((({ sampleForm with Password := "autofilled" } : SettingsForm).Validate.2).Merge
        sampleUser).Password = "stored-hash" ∧
      ((sampleForm.Validate.2).Merge sampleUser).Password = "stored-hash" :=
  ⟨Validate_Merge_empty_confirmation_keeps_password
      { sampleForm with Password := "autofilled" } sampleUser rfl
      (Validate_fst_none_of_rules _ (by decide) (by decide) (by decide)
        (by norm_num [playbackRateInRange, Float64.inClosedRange, sampleForm])),
    Validate_Merge_empty_confirmation_keeps_password sampleForm sampleUser rfl
      (Validate_fst_none_of_rules _ (by decide) (by decide) (by decide)
        (by norm_num [playbackRateInRange, Float64.inClosedRange, sampleForm]))⟩

/-- C12: for a form with Password = Confirmation = p, p non-empty, whose
mandatory fields are non-empty, whose reading speeds are positive and whose
playback rate lies in [0.25, 4], `Validate` returns no error and leaves Password
equal to p, and the following `Merge` stores exactly p as the user's password. -/
theorem Validate_Merge_matching_passwords (s : SettingsForm) (u : User) (p : String)
    (hne : p ≠ "") (hpw : s.Password = p) (hc : s.Confirmation = p)
    (hm : mandatoryFieldsPresent s) (hs : readingSpeedsPositive s)
    (hr : playbackRateInRange s) :
    s.Validate.1 = none ∧ s.Validate.2.Password = p ∧
      (s.Validate.2.Merge u).Password = p := by
  have hcne : s.Confirmation ≠ "" := by
    rw [hc]
    exact hne
  have hp : ¬ passwordMismatch s := by
    intro h
    exact h.2.2 (hpw.trans hc.symm)
  have hnan : s.MediaPlaybackRate ≠ .nan := by
    intro h
    unfold playbackRateInRange at hr
    rw [h] at hr
    exact Bool.false_ne_true hr
  have hsnd : s.Validate.2 = s := by
    rw [Validate_snd_eq, if_neg (fun h => hcne h.2.2)]
  refine ⟨?_, ?_, ?_⟩
  · rw [Validate_fst_eq_firstViolatedRule_of_ne_nan s hnan]
    unfold firstViolatedRule
    rw [if_neg (not_not.mpr hm), if_neg (not_not.mpr hs), if_neg hp,
      if_neg (not_not.mpr hr)]
  · rw [hsnd, hpw]
  · rw [hsnd, Merge_eq]
    show (if s.Password ≠ "" then s.Password else u.Password) = p
    rw [hpw, if_pos hne]

/-- C12 witness: the sample form with password and confirmation "abc". -/
theorem Validate_Merge_matching_passwords_witness :
    ({ sampleForm with Password := "abc", Confirmation := "abc" } :
        SettingsForm).Validate.1 = none ∧
      ({ sampleForm with Password := "abc", Confirmation := "abc" } :
        SettingsForm).Validate.2.Password = "abc" ∧
      ((({ sampleForm with Password := "abc", Confirmation := "abc" } :
        SettingsForm).Validate.2).Merge sampleUser).Password = "abc" :=
  Validate_Merge_matching_passwords
    { sampleForm with Password := "abc", Confirmation := "abc" } sampleUser "abc"
    (by decide) rfl rfl (by decide) (by decide)
    (by norm_num [playbackRateInRange, Float64.inClosedRange, sampleForm])

/-- C13: two forms that agree on the twelve fields `Validate` reads (Username,
Password, Confirmation, Theme, Language, Timezone, EntryDirection, DisplayMode,
DefaultHomePage, DefaultReadingSpeed, CJKReadingSpeed, MediaPlaybackRate) get the
same result from `Validate`, whatever their other fields are; and the
EntriesPerPage of a form, whatever its value, is the EntriesPerPage of the user
after `Validate` and `Merge`. -/
theorem Validate_independent_of_unvalidated_fields (s t : SettingsForm) (u : User)
    (hUsername : s.Username = t.Username) (hPassword : s.Password = t.Password)
    (hConfirmation : s.Confirmation = t.Confirmation) (hTheme : s.Theme = t.Theme)
    (hLanguage : s.Language = t.Language) (hTimezone : s.Timezone = t.Timezone)
    (hEntryDirection : s.EntryDirection = t.EntryDirection)
    (hDisplayMode : s.DisplayMode = t.DisplayMode)
    (hDefaultHomePage : s.DefaultHomePage = t.DefaultHomePage)
    (hDefaultReadingSpeed : s.DefaultReadingSpeed = t.DefaultReadingSpeed)
    (hCJKReadingSpeed : s.CJKReadingSpeed = t.CJKReadingSpeed)
    (hMediaPlaybackRate : s.MediaPlaybackRate = t.MediaPlaybackRate) :
    s.Validate.1 = t.Validate.1 ∧
      (s.Validate.2.Merge u).EntriesPerPage = s.EntriesPerPage := by
  constructor
  · exact Validate_fst_congr s t hUsername hPassword hConfirmation hTheme hLanguage
      hTimezone hEntryDirection hDisplayMode hDefaultHomePage hDefaultReadingSpeed
      hCJKReadingSpeed hMediaPlaybackRate
  · rw [Merge_eq]
    rcases Validate_snd_cases s with h | h <;> rw [h]

/-- C13 witness: the sample form with every unvalidated field changed, among
them an EntriesPerPage of -7, gets the result of the sample form, which is no
error, and -7 is the EntriesPerPage of the user after `Merge`. -/
theorem Validate_independent_of_unvalidated_fields_witness :
    (({ sampleForm with
          EntryOrder := "", EntriesPerPage := -7, KeyboardShortcuts := false,
          ShowReadingTime := false, CustomCSS := "p \x7b\x7d", EntrySwipe := false,
          GestureNav := "", CategoriesSortingOrder := "", MarkReadOnView := true,
          BlockFilterEntryRules := "(", KeepFilterEntryRules := "(" } :
        SettingsForm).Validate.1 = sampleForm.Validate.1 ∧
      ((({ sampleForm with
          EntryOrder := "", EntriesPerPage := -7, KeyboardShortcuts := false,
          ShowReadingTime := false, CustomCSS := "p \x7b\x7d", EntrySwipe := false,
          GestureNav := "", CategoriesSortingOrder := "", MarkReadOnView := true,
          BlockFilterEntryRules := "(", KeepFilterEntryRules := "(" } :
        SettingsForm).Validate.2).Merge sampleUser).EntriesPerPage = -7) ∧
      sampleForm.Validate.1 = none :=
  ⟨Validate_independent_of_unvalidated_fields _ sampleForm sampleUser
      rfl rfl rfl rfl rfl rfl rfl rfl rfl rfl rfl rfl,
    Validate_fst_none_of_rules _ (by decide) (by decide) (by decide)
      (by norm_num [playbackRateInRange, Float64.inClosedRange, sampleForm])⟩

/-- C14: after `Validate`, whatever it returns, every field of the form other
than Password has its previous value, and Password is its previous value or the
empty string. -/
theorem Validate_mutates_at_most_password (s : SettingsForm) :
    s.Validate.2.Username = s.Username ∧
    s.Validate.2.Confirmation = s.Confirmation ∧
    s.Validate.2.Theme = s.Theme ∧
    s.Validate.2.Language = s.Language ∧
    s.Validate.2.Timezone = s.Timezone ∧
    s.Validate.2.EntryDirection = s.EntryDirection ∧
    s.Validate.2.EntryOrder = s.EntryOrder ∧
    s.Validate.2.EntriesPerPage = s.EntriesPerPage ∧
    s.Validate.2.KeyboardShortcuts = s.KeyboardShortcuts ∧
    s.Validate.2.ShowReadingTime = s.ShowReadingTime ∧
    s.Validate.2.CustomCSS = s.CustomCSS ∧
    s.Validate.2.EntrySwipe = s.EntrySwipe ∧
    s.Validate.2.GestureNav = s.GestureNav ∧
    s.Validate.2.DisplayMode = s.DisplayMode ∧
    s.Validate.2.DefaultReadingSpeed = s.DefaultReadingSpeed ∧
    s.Validate.2.CJKReadingSpeed = s.CJKReadingSpeed ∧
    s.Validate.2.DefaultHomePage = s.DefaultHomePage ∧
    s.Validate.2.CategoriesSortingOrder = s.CategoriesSortingOrder ∧
    s.Validate.2.MarkReadOnView = s.MarkReadOnView ∧
    s.Validate.2.MediaPlaybackRate = s.MediaPlaybackRate ∧
    s.Validate.2.BlockFilterEntryRules = s.BlockFilterEntryRules ∧
    s.Validate.2.KeepFilterEntryRules = s.KeepFilterEntryRules ∧
    (s.Validate.2.Password = s.Password ∨ s.Validate.2.Password = "") := by
  rcases Validate_snd_cases s with h | h <;> rw [h]
  · exact ⟨rfl, rfl, rfl, rfl, rfl, rfl, rfl, rfl, rfl, rfl, rfl, rfl, rfl, rfl, rfl, rfl,
      rfl, rfl, rfl, rfl, rfl, rfl, Or.inl rfl⟩
  · exact ⟨rfl, rfl, rfl, rfl, rfl, rfl, rfl, rfl, rfl, rfl, rfl, rfl, rfl, rfl, rfl, rfl,
      rfl, rfl, rfl, rfl, rfl, rfl, Or.inr rfl⟩

/-- C15: on a platform whose `int` has 32 or 64 bits, each of EntriesPerPage,
DefaultReadingSpeed and CJKReadingSpeed of the form `NewSettingsForm` returns is
the base-10 integer its raw value denotes when the value denotes one that an
`int` holds, and 0 in every other case; `NewSettingsForm` is a total function,
so decoding never fails. -/
theorem NewSettingsForm_integer_fields (lib : Strconv) (r : Request)
    (hw : lib.IntSize = 32 ∨ lib.IntSize = 64) :
    (NewSettingsForm lib r).EntriesPerPage =
        decodedInt lib.IntSize (r.FormValue "entries_per_page") ∧
      (NewSettingsForm lib r).DefaultReadingSpeed =
        decodedInt lib.IntSize (r.FormValue "default_reading_speed") ∧
      (NewSettingsForm lib r).CJKReadingSpeed =
        decodedInt lib.IntSize (r.FormValue "cjk_reading_speed") := by
  unfold NewSettingsForm
  dsimp only
  exact ⟨decode_eq_decodedInt _ hw _, decode_eq_decodedInt _ hw _,
    decode_eq_decodedInt _ hw _⟩

/-- C15 witness: on the sample request, "notanumber" gives 0, "+265" gives 265
and "99999999999999999999", which no `int` holds, gives 0. -/
theorem NewSettingsForm_integer_fields_witness :
    (NewSettingsForm sampleStrconv sampleRequest).EntriesPerPage = 0 ∧
      (NewSettingsForm sampleStrconv sampleRequest).DefaultReadingSpeed = 265 ∧
      (NewSettingsForm sampleStrconv sampleRequest).CJKReadingSpeed = 0 :=
  ⟨(NewSettingsForm_integer_fields sampleStrconv sampleRequest (Or.inr rfl)).1.trans
      (by decide),
    (NewSettingsForm_integer_fields sampleStrconv sampleRequest (Or.inr rfl)).2.1.trans
      (by decide),
    (NewSettingsForm_integer_fields sampleStrconv sampleRequest (Or.inr rfl)).2.2.trans
      (by decide)⟩

/-- C16 as stated fails: the text "Inf" is not a decimal number, yet
`ParseFloat` accepts it, so on a request that is valid but for a
media_playback_rate of "Inf" the decoded MediaPlaybackRate is positive infinity,
not 1, and `Validate` on the decoded form returns the playback-rate error. -/
theorem NewSettingsForm_infinity_not_fallback :
    isDecimalNumber (infinityRequest.FormValue "media_playback_rate") = false ∧
      (NewSettingsForm sampleStrconv infinityRequest).MediaPlaybackRate = .posInf ∧
      (NewSettingsForm sampleStrconv infinityRequest).MediaPlaybackRate ≠ .finite 1 ∧
      (NewSettingsForm sampleStrconv infinityRequest).Validate.1 =
        some (NewLocalizedError "error.settings_media_playback_rate_range") := by
  refine ⟨by decide, by decide, by decide, by decide⟩

/-- C16 (amended): when the media_playback_rate is absent or empty, or is any
other text on which `strconv.ParseFloat` returns an error, `NewSettingsForm`
sets MediaPlaybackRate to exactly 1, and `Validate` on the decoded form does not
return the playback-rate error. -/
theorem NewSettingsForm_playback_rate_fallback (lib : Strconv) (r : Request)
    (herr : r.Form "media_playback_rate" = [] ∨
      r.FormValue "media_playback_rate" = "" ∨
      (ParseFloat lib (r.FormValue "media_playback_rate")).2 ≠ none) :
    (NewSettingsForm lib r).MediaPlaybackRate = .finite 1 ∧
      (NewSettingsForm lib r).Validate.1 ≠
        some (NewLocalizedError "error.settings_media_playback_rate_range") := by
  have hfail : (ParseFloat lib (r.FormValue "media_playback_rate")).2 ≠ none := by
    rcases herr with h | h | h
    · rw [FormValue_absent r _ h]
      exact ParseFloat_empty lib
    · rw [h]
      exact ParseFloat_empty lib
    · exact h
  have h1 : (NewSettingsForm lib r).MediaPlaybackRate = .finite 1 := by
    unfold NewSettingsForm
    dsimp only
    rw [if_pos hfail]
  exact ⟨h1, Validate_rate_one _ h1⟩

/-- C16 witness: the sample request, whose media_playback_rate is "fast", a
request without any value, and the valid request with the rate "1e", an
exponent without digits. -/
theorem NewSettingsForm_playback_rate_fallback_witness :
    ((NewSettingsForm sampleStrconv sampleRequest).MediaPlaybackRate = .finite 1 ∧
      (NewSettingsForm sampleStrconv sampleRequest).Validate.1 ≠
        some (NewLocalizedError "error.settings_media_playback_rate_range")) ∧
    ((NewSettingsForm sampleStrconv ⟨fun _ => []⟩).MediaPlaybackRate = .finite 1 ∧
      (NewSettingsForm sampleStrconv ⟨fun _ => []⟩).Validate.1 ≠
        some (NewLocalizedError "error.settings_media_playback_rate_range")) ∧
    ((NewSettingsForm sampleStrconv
        ⟨fun key => if key = "media_playback_rate" then ["1e"]
          else infinityRequest.Form key⟩).MediaPlaybackRate = .finite 1 ∧
      (NewSettingsForm sampleStrconv
        ⟨fun key => if key = "media_playback_rate" then ["1e"]
          else infinityRequest.Form key⟩).Validate.1 ≠
        some (NewLocalizedError "error.settings_media_playback_rate_range")) :=
  ⟨NewSettingsForm_playback_rate_fallback sampleStrconv sampleRequest
      (Or.inr (Or.inr (by decide))),
    NewSettingsForm_playback_rate_fallback sampleStrconv ⟨fun _ => []⟩ (Or.inl rfl),
    NewSettingsForm_playback_rate_fallback sampleStrconv
      ⟨fun key => if key = "media_playback_rate" then ["1e"]
        else infinityRequest.Form key⟩ (Or.inr (Or.inr (by decide)))⟩

/-- C17: each boolean field of the form `NewSettingsForm` returns is true
exactly when the raw value of its key is the string "1". -/
theorem NewSettingsForm_boolean_fields (lib : Strconv) (r : Request) :
    ((NewSettingsForm lib r).KeyboardShortcuts = true ↔
        r.FormValue "keyboard_shortcuts" = "1") ∧
      ((NewSettingsForm lib r).ShowReadingTime = true ↔
        r.FormValue "show_reading_time" = "1") ∧
      ((NewSettingsForm lib r).EntrySwipe = true ↔ r.FormValue "entry_swipe" = "1") ∧
      ((NewSettingsForm lib r).MarkReadOnView = true ↔
        r.FormValue "mark_read_on_view" = "1") := by
  unfold NewSettingsForm
  dsimp only
  exact ⟨beq_iff_eq, beq_iff_eq, beq_iff_eq, beq_iff_eq⟩

/-- C17 witness: on the sample request, keyboard_shortcuts "1" gives true, and
show_reading_time "true", entry_swipe " 1" and the absent mark_read_on_view give
false. -/
theorem NewSettingsForm_boolean_fields_witness :
    (NewSettingsForm sampleStrconv sampleRequest).KeyboardShortcuts = true ∧
      ¬ (NewSettingsForm sampleStrconv sampleRequest).ShowReadingTime = true ∧
      ¬ (NewSettingsForm sampleStrconv sampleRequest).EntrySwipe = true ∧
      ¬ (NewSettingsForm sampleStrconv sampleRequest).MarkReadOnView = true :=
  ⟨(NewSettingsForm_boolean_fields sampleStrconv sampleRequest).1.mpr (by decide),
    fun h => absurd
      ((NewSettingsForm_boolean_fields sampleStrconv sampleRequest).2.1.mp h) (by decide),
    fun h => absurd
      ((NewSettingsForm_boolean_fields sampleStrconv sampleRequest).2.2.1.mp h) (by decide),
    fun h => absurd
      ((NewSettingsForm_boolean_fields sampleStrconv sampleRequest).2.2.2.mp h) (by decide)⟩

/-- C18: when `Validate` returns no error, the user produced by the following
`Merge` has non-empty Username, Theme, Language, Timezone, EntryDirection,
DisplayMode and DefaultHomePage and strictly positive DefaultReadingSpeed and
CJKReadingSpeed. -/
theorem Validate_Merge_user_satisfies_rules (s : SettingsForm) (u : User)
    (hv : s.Validate.1 = none) :
    (s.Validate.2.Merge u).Username ≠ "" ∧
      (s.Validate.2.Merge u).Theme ≠ "" ∧
      (s.Validate.2.Merge u).Language ≠ "" ∧
      (s.Validate.2.Merge u).Timezone ≠ "" ∧
      (s.Validate.2.Merge u).EntryDirection ≠ "" ∧
      (s.Validate.2.Merge u).DisplayMode ≠ "" ∧
      (s.Validate.2.Merge u).DefaultHomePage ≠ "" ∧
      0 < (s.Validate.2.Merge u).DefaultReadingSpeed ∧
      0 < (s.Validate.2.Merge u).CJKReadingSpeed := by
  obtain ⟨hm, hs, _⟩ := rules_of_Validate_none s hv
  obtain ⟨h1, h2, h3, h4, h5, h6, h7⟩ := hm
  obtain ⟨h8, h9⟩ := hs
  rw [Merge_eq]
  rcases Validate_snd_cases s with h | h <;> rw [h] <;>
    exact ⟨h1, h2, h3, h4, h5, h6, h7, h9, h8⟩

/-- C18 witness: the sample form merged into the sample user. -/
theorem Validate_Merge_user_satisfies_rules_witness :
    ((sampleForm.Validate.2).Merge sampleUser).Username ≠ "" ∧
      ((sampleForm.Validate.2).Merge sampleUser).Theme ≠ "" ∧
      ((sampleForm.Validate.2).Merge sampleUser).Language ≠ "" ∧
      ((sampleForm.Validate.2).Merge sampleUser).Timezone ≠ "" ∧
      ((sampleForm.Validate.2).Merge sampleUser).EntryDirection ≠ "" ∧
      ((sampleForm.Validate.2).Merge sampleUser).DisplayMode ≠ "" ∧
      ((sampleForm.Validate.2).Merge sampleUser).DefaultHomePage ≠ "" ∧
      0 < ((sampleForm.Validate.2).Merge sampleUser).DefaultReadingSpeed ∧
      0 < ((sampleForm.Validate.2).Merge sampleUser).CJKReadingSpeed :=
  Validate_Merge_user_satisfies_rules sampleForm sampleUser
    (Validate_fst_none_of_rules _ (by decide) (by decide) (by decide)
      (by norm_num [playbackRateInRange, Float64.inClosedRange, sampleForm]))

/-- C19: `Validate` changes the form exactly when the mandatory fields are
non-empty, the reading speeds are positive, Confirmation is empty and Password is
not, whatever it returns; a mandatory-field, reading-speed or password-mismatch
error leaves the form unchanged; and for some form with an empty Confirmation, a
non-empty Password and a playback rate outside [0.25, 4], `Validate` returns the
playback-rate error and has cleared Password. -/
theorem Validate_changes_form_iff (s : SettingsForm) :
    (s.Validate.2 ≠ s ↔
        mandatoryFieldsPresent s ∧ readingSpeedsPositive s ∧ s.Confirmation = "" ∧
          s.Password ≠ "") ∧
      (s.Validate.1 = some (NewLocalizedError "error.settings_mandatory_fields") ∨
          s.Validate.1 = some (NewLocalizedError "error.settings_reading_speed_is_positive") ∨
          s.Validate.1 = some (NewLocalizedError "error.different_passwords") →
        s.Validate.2 = s) ∧
      (∃ t : SettingsForm, t.Confirmation = "" ∧ t.Password ≠ "" ∧
        ¬ playbackRateInRange t ∧
        t.Validate.1 = some (NewLocalizedError "error.settings_media_playback_rate_range") ∧
        t.Validate.2.Password = "" ∧ t.Validate.2 ≠ t) := by
  refine ⟨?_, ?_, ?_⟩
  · rw [Validate_snd_eq]
    by_cases hc : mandatoryFieldsPresent s ∧ readingSpeedsPositive s ∧ s.Confirmation = ""
    · rw [if_pos hc, clear_password_ne_iff]
      constructor
      · intro h
        exact ⟨hc.1, hc.2.1, hc.2.2, h⟩
      · intro h
        exact h.2.2.2
    · rw [if_neg hc]
      constructor
      · intro h
        exact absurd rfl h
      · intro h
        exact absurd ⟨h.1, h.2.1, h.2.2.1⟩ hc
  · intro herr
    rw [Validate_snd_eq, if_neg]
    rintro ⟨hm, hs, hconf⟩
    have hp : ¬ passwordMismatch s := fun h => h.1 hconf
    rw [Validate_fst_past_password s hm hs hp] at herr
    rcases validatePlaybackRate_fst_cases s with h | h <;> rw [h] at herr
    · rcases herr with h1 | h1 | h1 <;> cases h1
    · rcases herr with h1 | h1 | h1
      · exact rangeError_ne_mandatoryFields (Option.some.inj h1)
      · exact rangeError_ne_readingSpeed (Option.some.inj h1)
      · exact rangeError_ne_differentPasswords (Option.some.inj h1)
  · have hm : mandatoryFieldsPresent autofilledFastForm := by decide
    have hs : readingSpeedsPositive autofilledFastForm := by decide
    have hp : ¬ passwordMismatch autofilledFastForm := by decide
    refine ⟨autofilledFastForm, rfl, by decide, ?_, ?_, ?_, ?_⟩
    · norm_num [playbackRateInRange, Float64.inClosedRange, autofilledFastForm, sampleForm]
    · rw [Validate_fst_past_password _ hm hs hp]
      apply validatePlaybackRate_fst_outside
      norm_num [Float64.lt, Float64.gt, autofilledFastForm, sampleForm]
    · rw [Validate_snd_eq, if_pos ⟨hm, hs, rfl⟩]
    · rw [Validate_snd_eq, if_pos ⟨hm, hs, rfl⟩, clear_password_ne_iff]
      decide

/-- C19 witness: the sample form with an autofilled password is changed by
`Validate`, which returns no error; the form with an empty username and a
reading speed of 0 is left unchanged by the mandatory-fields error. -/
theorem Validate_changes_form_iff_witness :
    ({ sampleForm with Password := "autofilled" } : SettingsForm).Validate.2 ≠
        { sampleForm with Password := "autofilled" } ∧
      noUsernameZeroSpeedForm.Validate.2 = noUsernameZeroSpeedForm :=
  ⟨(Validate_changes_form_iff { sampleForm with Password := "autofilled" }).1.mpr
      ⟨by decide, by decide, rfl, by decide⟩,
    (Validate_changes_form_iff noUsernameZeroSpeedForm).2.1 (Or.inl (by decide))⟩

/-- C20: `Validate` is idempotent: a second call on the form the first call
left returns the same result and leaves the form in the same state. -/
theorem Validate_idempotent (s : SettingsForm) :
    s.Validate.2.Validate.1 = s.Validate.1 ∧ s.Validate.2.Validate.2 = s.Validate.2 := by
  rw [Validate_Validate]
  exact ⟨rfl, rfl⟩

end Miniflux
